import Mathlib

/-!
Verification of the nginx-operator reconciler
(controllers/nginxcluster_controller.go and api/v1/nginxcluster_types.go).

The Go controller is shallowly embedded: Go maps become association lists
over String (a nil map is distinguished from an empty one with Option),
32-bit counts become Int (the controller only copies and compares them),
timestamps become Nat instants, and the Kubernetes API server becomes an
explicit store record mutated by the reconcile pass.  The pass returns the
control-flow outcome, the list of mutating API calls it issued, and the
store after those calls.
-/

set_option maxRecDepth 4096

namespace NginxOperator

/-! ### Association-list maps (embedding of Go map[string]string) -/

/-- Embedding of a non-nil Go map[string]string as an association list. -/
abbrev StrMap := List (String × String)

/-- Reading a key from a Go map: the first binding for the key, or the zero
value (the empty string) when the key is absent. -/
def mget (m : StrMap) (k : String) : String :=
  match m with
  | [] => ""
  | (k', v) :: rest => if k' = k then v else mget rest k

/-- Writing a key into a (non-nil) Go map: replace the existing binding or
append a new one. -/
def mset (m : StrMap) (k v : String) : StrMap :=
  match m with
  | [] => [(k, v)]
  | (k', v') :: rest => if k' = k then (k', v) :: rest else (k', v') :: mset rest k v

/-- Reading from a possibly-nil Go map: a nil map reads as empty and yields
the zero value. -/
def mread (m : Option StrMap) (k : String) : String :=
  match m with
  | none => ""
  | some m => mget m k

/-- Generic association list keyed by object name, embedding one kind of
object store held by the API server. -/
def alookup {α : Type} (l : List (String × α)) (k : String) : Option α :=
  match l with
  | [] => none
  | (k', v) :: rest => if k' = k then some v else alookup rest k

/-- Store a value under a key, replacing any existing entry. -/
def aset {α : Type} (l : List (String × α)) (k : String) (v : α) : List (String × α) :=
  match l with
  | [] => [(k, v)]
  | (k', v') :: rest => if k' = k then (k', v) :: rest else (k', v') :: aset rest k v

/-- Remove a key from the store. -/
def aremove {α : Type} (l : List (String × α)) (k : String) : List (String × α) :=
  match l with
  | [] => []
  | (k', v') :: rest => if k' = k then aremove rest k else (k', v') :: aremove rest k

/-! ### SHA-256 (embedding of crypto/sha256 as used by calculateConfigHash)

Words are naturals below 2^32; every arithmetic step reduces modulo
4294967296 exactly where the 32-bit machine operation would wrap. -/

/-- Reduce to a 32-bit word. -/
def w32 (x : Nat) : Nat := x % 4294967296

/-- Right rotation of a 32-bit word. -/
def rotr32 (x n : Nat) : Nat := w32 ((x >>> n) ||| (x <<< (32 - n)))

/-- UTF-8 encoding of one code point, as Go's []byte(string) conversion
produces it. -/
def utf8Bytes (c : Nat) : List Nat :=
  if c < 128 then [c]
  else if c < 2048 then [192 ||| (c >>> 6), 128 ||| (c &&& 63)]
  else if c < 65536 then
    [224 ||| (c >>> 12), 128 ||| ((c >>> 6) &&& 63), 128 ||| (c &&& 63)]
  else
    [240 ||| (c >>> 18), 128 ||| ((c >>> 12) &&& 63),
     128 ||| ((c >>> 6) &&& 63), 128 ||| (c &&& 63)]

/-- Byte sequence of a string, as Go's []byte(config). -/
def strBytes (s : String) : List Nat :=
  (s.data.map (fun c => utf8Bytes c.toNat)).flatten

/-- SHA-256 message padding: a 0x80 byte, zeros to 56 mod 64, then the bit
length as eight big-endian bytes. -/
def sha256Pad (msg : List Nat) : List Nat :=
  let bitLen := 8 * msg.length
  let zeros := (119 - msg.length % 64) % 64
  msg ++ 128 :: (List.replicate zeros 0 ++
    (List.range 8).map (fun i => (bitLen >>> (8 * (7 - i))) % 256))

/-- Group bytes four at a time into big-endian 32-bit words. -/
def bytesToWords : List Nat → List Nat
  | b0 :: b1 :: b2 :: b3 :: rest =>
      (((b0 * 256 + b1) * 256 + b2) * 256 + b3) :: bytesToWords rest
  | _ => []

/-- Split the padded byte stream into 64-byte blocks (fuel-indexed helper
so the recursion is structural). -/
def chunks64Aux : Nat → List Nat → List (List Nat)
  | 0, _ => []
  | _ + 1, [] => []
  | n + 1, l => l.take 64 :: chunks64Aux n (l.drop 64)

/-- Split a byte stream into 64-byte blocks. -/
def chunks64 (l : List Nat) : List (List Nat) := chunks64Aux (l.length + 1) l

/-- List indexing with default 0, for the message schedule. -/
def nthW (l : List Nat) (i : Nat) : Nat := l.getD i 0

/-- Small sigma-0 of the SHA-256 schedule. -/
def ssig0 (x : Nat) : Nat := (rotr32 x 7) ^^^ (rotr32 x 18) ^^^ (x >>> 3)

/-- Small sigma-1 of the SHA-256 schedule. -/
def ssig1 (x : Nat) : Nat := (rotr32 x 17) ^^^ (rotr32 x 19) ^^^ (x >>> 10)

/-- Big sigma-0 of the SHA-256 compression. -/
def bsig0 (x : Nat) : Nat := (rotr32 x 2) ^^^ (rotr32 x 13) ^^^ (rotr32 x 22)

/-- Big sigma-1 of the SHA-256 compression. -/
def bsig1 (x : Nat) : Nat := (rotr32 x 6) ^^^ (rotr32 x 11) ^^^ (rotr32 x 25)

/-- Round constants of SHA-256. -/
def sha256K : List Nat :=
  [1116352408, 1899447441, 3049323471, 3921009573, 961987163,
   1508970993, 2453635748, 2870763221, 3624381080, 310598401,
   607225278, 1426881987, 1925078388, 2162078206, 2614888103,
   3248222580, 3835390401, 4022224774, 264347078, 604807628,
   770255983, 1249150122, 1555081692, 1996064986, 2554220882,
   2821834349, 2952996808, 3210313671, 3336571891, 3584528711,
   113926993, 338241895, 666307205, 773529912, 1294757372,
   1396182291, 1695183700, 1986661051, 2177026350, 2456956037,
   2730485921, 2820302411, 3259730800, 3345764771, 3516065817,
   3600352804, 4094571909, 275423344, 430227734, 506948616,
   659060556, 883997877, 958139571, 1322822218, 1537002063,
   1747873779, 1955562222, 2024104815, 2227730452, 2361852424,
   2428436474, 2756734187, 3204031479, 3329325298]

/-- Initial hash state of SHA-256. -/
def sha256H0 : List Nat :=
  [1779033703, 3144134277, 1013904242, 2773480762, 1359893119,
   2600822924, 528734635, 1541459225]

/-- Extend the 16 block words to the 64-word message schedule. -/
def extendSchedule (ws : List Nat) : List Nat :=
  (List.range 48).foldl
    (fun w _ =>
      let n := w.length
      w ++ [w32 (ssig1 (nthW w (n - 2)) + nthW w (n - 7) +
                 ssig0 (nthW w (n - 15)) + nthW w (n - 16))])
    ws

/-- One SHA-256 round on the eight-word working state. -/
def sha256Round (st : List Nat) (kw : Nat × Nat) : List Nat :=
  match st with
  | [a, b, c, d, e, f, g, h] =>
    let ch := (e &&& f) ^^^ ((e ^^^ 4294967295) &&& g)
    let maj := (a &&& b) ^^^ (a &&& c) ^^^ (b &&& c)
    let t1 := w32 (h + bsig1 e + ch + kw.1 + kw.2)
    let t2 := w32 (bsig0 a + maj)
    [w32 (t1 + t2), a, b, c, w32 (d + t1), e, f, g]
  | _ => st

/-- Compress one 64-byte block into the hash state. -/
def sha256Compress (hs : List Nat) (block : List Nat) : List Nat :=
  let w := extendSchedule (bytesToWords block)
  let st := (sha256K.zip w).foldl sha256Round hs
  List.zipWith (fun x y => w32 (x + y)) hs st

/-- Eight-word SHA-256 digest of a byte stream. -/
def sha256Words (msg : List Nat) : List Nat :=
  (chunks64 (sha256Pad msg)).foldl sha256Compress sha256H0

/-- Lowercase hex digit. -/
def hexDigitChar (n : Nat) : Char :=
  if n < 10 then Char.ofNat (48 + n) else Char.ofNat (87 + n)

/-- Eight lowercase hex characters of one 32-bit word, most significant
nibble first. -/
def wordToHex (n : Nat) : List Char :=
  (List.range 8).map (fun i => hexDigitChar ((n >>> (4 * (7 - i))) &&& 15))

/-- Lowercase hex rendering of the SHA-256 digest of a string, as Go's
fmt.Sprintf with the x verb renders a [32]byte. -/
def sha256Hex (s : String) : String :=
  String.mk (((sha256Words (strBytes s)).map wordToHex).flatten)

/-- Embedding of calculateConfigHash: hash of the nginx configuration,
the first 16 hex characters of its SHA-256 digest. -/
def calculateConfigHash (config : String) : String :=
  (sha256Hex config).take 16

/-- Embedding of getDefaultNginxConf: the built-in baseline nginx
configuration, byte for byte the Go raw string literal (braces written with
hex escapes). -/
def getDefaultNginxConf : String :=
  "\nevents \x7b\n    worker_connections 1024;\n\x7d\n\nhttp \x7b\n    include       /etc/nginx/mime.types;\n    default_type  application/octet-stream;\n\n    sendfile        on;\n    keepalive_timeout  65;\n\n    server \x7b\n        listen       80;\n        server_name  localhost;\n\n        location / \x7b\n            root   /usr/share/nginx/html;\n            index  index.html index.htm;\n        \x7d\n\n        error_page   500 502 503 504  /50x.html;\n        location = /50x.html \x7b\n            root   /usr/share/nginx/html;\n        \x7d\n    \x7d\n\x7d\n"

/-! ### Data model (embedding of api/v1/nginxcluster_types.go and the
Kubernetes objects the controller touches) -/

/-- Embedding of NginxClusterSpec.  Replicas is int32 in Go; the controller
only copies and compares it, so Int is faithful. -/
structure NginxClusterSpecV where
  replicas : Int
  image : String
  nginxConf : String
deriving DecidableEq, Repr

/-- Embedding of NginxClusterStatus; LastUpdateTime is a nullable metav1.Time
pointer, modelled as an optional abstract instant. -/
structure NginxClusterStatusV where
  replicas : Int
  readyReplicas : Int
  configHash : String
  lastUpdateTime : Option Nat
deriving DecidableEq, Repr

/-- Embedding of the NginxCluster custom resource: object metadata the
controller reads or writes (name, namespace, deletion timestamp,
finalizers) together with spec and status. -/
structure NginxClusterV where
  name : String
  ns : String
  deletionTimestamp : Option Nat
  finalizers : List String
  spec : NginxClusterSpecV
  status : NginxClusterStatusV
deriving DecidableEq, Repr

/-- Embedding of a corev1.ConfigMap as the controller uses it.  Annotations
and Data are Go maps that may be nil, hence the Option. -/
structure ConfigMapV where
  name : String
  ns : String
  annotations : Option StrMap
  data : Option StrMap
  ownerRef : Option String
deriving DecidableEq, Repr

/-- Embedding of an appsv1.Deployment as the controller uses it: the
replica pointer (nil-able), selector and pod-template labels, the
pod-template annotation map (nil-able), the container and volume fields the
builder sets, and the observed status counts. -/
structure DeploymentV where
  name : String
  ns : String
  replicas : Option Int
  selector : StrMap
  templateLabels : StrMap
  templateAnnotations : Option StrMap
  containerName : String
  image : String
  containerPort : Int
  portName : String
  volumeName : String
  mountPath : String
  subPath : String
  volumeConfigMapName : String
  statusReplicas : Int
  statusReadyReplicas : Int
  ownerRef : Option String
deriving DecidableEq, Repr

/-- Embedding of a corev1.Service as the controller builds it. -/
structure ServiceV where
  name : String
  ns : String
  selector : StrMap
  port : Int
  portName : String
  protocol : String
  svcType : String
  ownerRef : Option String
deriving DecidableEq, Repr

/-- Embedding of the nginxClusterFinalizer constant. -/
def nginxClusterFinalizer : String := "nginx.example.com/finalizer"

/-- Embedding of the configMapNameSuffix constant. -/
def configMapNameSuffix : String := "-nginx-config"

/-- Name under which the reconciler fetches and creates the ConfigMap. -/
def configMapKey (clusterName : String) : String :=
  clusterName ++ configMapNameSuffix

/-- Embedding of controllerutil.ContainsFinalizer. -/
def containsFinalizer (m : NginxClusterV) : Bool :=
  m.finalizers.contains nginxClusterFinalizer

/-- Embedding of controllerutil.AddFinalizer (the caller has already checked
absence, matching the Go call site). -/
def addFinalizer (m : NginxClusterV) : NginxClusterV :=
  { m with finalizers := m.finalizers ++ [nginxClusterFinalizer] }

/-- Embedding of controllerutil.RemoveFinalizer. -/
def removeFinalizer (m : NginxClusterV) : NginxClusterV :=
  { m with finalizers := m.finalizers.filter (fun f => f ≠ nginxClusterFinalizer) }

/-- Rendering of an abstract instant, standing for
time.Now().Format(time.RFC3339); distinct instants render distinctly. -/
def formatRFC3339 (t : Nat) : String := toString t

/-- Labels shared by the deployment selector, the pod template, and the
service selector. -/
def nginxLabels (m : NginxClusterV) : StrMap :=
  [("app", "nginx"), ("cluster", m.name)]

/-- Embedding of configMapForNginxCluster: the desired-state builder for the
ConfigMap, substituting the default configuration when NginxConf is empty. -/
def configMapForNginxCluster (m : NginxClusterV) (configHash : String) : ConfigMapV :=
  let nginxConf := if m.spec.nginxConf = "" then getDefaultNginxConf else m.spec.nginxConf
  { name := m.name ++ configMapNameSuffix
    ns := m.ns
    annotations := some [("config-hash", configHash)]
    data := some [("nginx.conf", nginxConf)]
    ownerRef := some m.name }

/-- Embedding of deploymentForNginxCluster: the desired-state builder for
the Deployment, substituting the default image when Image is empty. -/
def deploymentForNginxCluster (m : NginxClusterV) (configHash : String) : DeploymentV :=
  let image := if m.spec.image = "" then "nginx:latest" else m.spec.image
  { name := m.name
    ns := m.ns
    replicas := some m.spec.replicas
    selector := nginxLabels m
    templateLabels := nginxLabels m
    templateAnnotations := some [("config-hash", configHash)]
    containerName := "nginx"
    image := image
    containerPort := 80
    portName := "http"
    volumeName := "nginx-config"
    mountPath := "/etc/nginx/nginx.conf"
    subPath := "nginx.conf"
    volumeConfigMapName := m.name ++ configMapNameSuffix
    statusReplicas := 0
    statusReadyReplicas := 0
    ownerRef := some m.name }

/-- Embedding of serviceForNginxCluster: the desired-state builder for the
Service. -/
def serviceForNginxCluster (m : NginxClusterV) : ServiceV :=
  { name := m.name
    ns := m.ns
    selector := nginxLabels m
    port := 80
    portName := "http"
    protocol := "TCP"
    svcType := "ClusterIP"
    ownerRef := some m.name }

/-! ### The store and the reconcile pass -/

/-- The API server's stores for the cluster resource and its three child
kinds, keyed by object name (the reconcile request carries one namespace,
so keys are names). -/
structure ClusterState where
  clusters : List (String × NginxClusterV)
  configMaps : List (String × ConfigMapV)
  deployments : List (String × DeploymentV)
  services : List (String × ServiceV)
deriving DecidableEq, Repr

/-- One mutating API call issued by a reconcile pass, in issue order.
runFinalize records the invocation of the finalizeNginxCluster cleanup
hook. -/
inductive Mutation where
  | clusterUpdate (c : NginxClusterV)
  | runFinalize
  | cmCreate (cm : ConfigMapV)
  | cmUpdate (cm : ConfigMapV)
  | depCreate (d : DeploymentV)
  | depUpdate (d : DeploymentV)
  | svcCreate (sv : ServiceV)
  | statusUpdate (st : NginxClusterStatusV)
deriving DecidableEq, Repr

/-- Embedding of ctrl.Result (RequeueAfter is never set by this
controller). -/
structure CtrlResult where
  requeue : Bool
deriving DecidableEq, Repr

/-- Outcome of a pass: a ctrl.Result with a nil error, or a Go runtime
panic (nil-map write or nil-pointer dereference).  Store calls themselves
never fail in this embedding, so the controller's error returns reduce to
these two cases. -/
inductive Outcome where
  | ok (res : CtrlResult)
  | panicked
deriving DecidableEq, Repr

/-- Result of one reconcile pass: outcome, issued mutations, store after. -/
structure RecResult where
  outcome : Outcome
  trace : List Mutation
  state : ClusterState
deriving DecidableEq, Repr

/-- The API server persisting an update of the cluster resource; once the
object is deletion-marked and carries no finalizer, the server garbage
collects it (this external deletion semantics is what makes the
post-finalization store observable). -/
def applyClusterUpdate (s : ClusterState) (c : NginxClusterV) : ClusterState :=
  if c.deletionTimestamp.isSome && c.finalizers.isEmpty then
    { s with clusters := aremove s.clusters c.name }
  else
    { s with clusters := aset s.clusters c.name c }

/-- The API server persisting a status-subresource update: only the status
of the stored object changes. -/
def applyStatusUpdate (s : ClusterState) (c : NginxClusterV) : ClusterState :=
  match alookup s.clusters c.name with
  | none => s
  | some stored =>
      { s with clusters := aset s.clusters c.name { stored with status := c.status } }

/-- Status the controller publishes (lines 200 to 205): observed counts
copied from the fetched Deployment, the computed hash, the pass instant. -/
def pubStatus (dep : DeploymentV) (configHash : String) (now : Nat) : NginxClusterStatusV :=
  { replicas := dep.statusReplicas
    readyReplicas := dep.statusReadyReplicas
    configHash := configHash
    lastUpdateTime := some now }

/-- Final section of the pass (controller lines 183 to 213): ensure the
Service exists, then publish status copied from the fetched Deployment, the
computed hash, and the pass instant. -/
def serviceAndStatusStep (now : Nat) (nc : NginxClusterV) (configHash : String)
    (dep : DeploymentV) (tr : List Mutation) (s : ClusterState) : RecResult :=
  let trs :=
    match alookup s.services nc.name with
    | none =>
        let srv := serviceForNginxCluster nc
        (tr ++ [Mutation.svcCreate srv],
         { s with services := aset s.services srv.name srv })
    | some _ => (tr, s)
  { outcome := Outcome.ok ⟨false⟩
    trace := trs.1 ++ [Mutation.statusUpdate (pubStatus dep configHash now)]
    state := applyStatusUpdate trs.2 { nc with status := pubStatus dep configHash now } }

/-- Deployment section of the pass (controller lines 137 to 181): create
and requeue when absent; dereference the replica pointer and update then
requeue on mismatch; otherwise refresh the pod-template hash and restart
annotations when the recorded hash differs; then fall through to the
Service and status section. -/
def deploymentStep (now : Nat) (nc : NginxClusterV) (configHash : String)
    (tr : List Mutation) (s : ClusterState) : RecResult :=
  match alookup s.deployments nc.name with
  | none =>
      let dep := deploymentForNginxCluster nc configHash
      { outcome := Outcome.ok ⟨true⟩
        trace := tr ++ [Mutation.depCreate dep]
        state := { s with deployments := aset s.deployments dep.name dep } }
  | some d0 =>
      match d0.replicas with
      | none => { outcome := Outcome.panicked, trace := tr, state := s }
      | some n =>
        if n ≠ nc.spec.replicas then
          let d1 := { d0 with replicas := some nc.spec.replicas }
          { outcome := Outcome.ok ⟨true⟩
            trace := tr ++ [Mutation.depUpdate d1]
            state := { s with deployments := aset s.deployments d1.name d1 } }
        else
          if mread d0.templateAnnotations "config-hash" ≠ configHash then
            match d0.templateAnnotations with
            | none => { outcome := Outcome.panicked, trace := tr, state := s }
            | some a =>
              let ta := mset (mset a "config-hash" configHash) "restartedAt" (formatRFC3339 now)
              let d1 := { d0 with templateAnnotations := some ta }
              serviceAndStatusStep now nc configHash d1
                (tr ++ [Mutation.depUpdate d1])
                { s with deployments := aset s.deployments d1.name d1 }
          else serviceAndStatusStep now nc configHash d0 tr s

/-- ConfigMap section of the pass (controller lines 107 to 135): create
from the builder when absent; otherwise, when the stored config-hash
annotation differs from the computed hash, write the raw spec text and the
new hash into the fetched object's (possibly nil) Data and Annotations maps
and persist; then fall through to the Deployment section. -/
def configStep (now : Nat) (nc : NginxClusterV) (configHash : String)
    (tr : List Mutation) (s : ClusterState) : RecResult :=
  match alookup s.configMaps (configMapKey nc.name) with
  | none =>
      let cm := configMapForNginxCluster nc configHash
      deploymentStep now nc configHash (tr ++ [Mutation.cmCreate cm])
        { s with configMaps := aset s.configMaps cm.name cm }
  | some cm0 =>
      if mread cm0.annotations "config-hash" ≠ configHash then
        match cm0.data with
        | none => { outcome := Outcome.panicked, trace := tr, state := s }
        | some d =>
          match cm0.annotations with
          | none => { outcome := Outcome.panicked, trace := tr, state := s }
          | some a =>
            let cm1 := { cm0 with
              data := some (mset d "nginx.conf" nc.spec.nginxConf)
              annotations := some (mset a "config-hash" configHash) }
            deploymentStep now nc configHash (tr ++ [Mutation.cmUpdate cm1])
              { s with configMaps := aset s.configMaps cm1.name cm1 }
      else deploymentStep now nc configHash tr s

/-- Embedding of Reconcile (controller lines 60 to 214): fetch the cluster
resource (absent is success with no action); add the finalizer when
missing, with no deletion-timestamp guard, exactly as the Go code does;
take the deletion branch when deletion-marked (cleanup hook, finalizer
removal); otherwise compute the hash of the raw spec text and converge the
three children in order. -/
def reconcile (now : Nat) (req : String) (s : ClusterState) : RecResult :=
  match alookup s.clusters req with
  | none => { outcome := Outcome.ok ⟨false⟩, trace := [], state := s }
  | some nc0 =>
    let finAdd := !(containsFinalizer nc0)
    let nc := if finAdd then addFinalizer nc0 else nc0
    let tr0 : List Mutation := if finAdd then [Mutation.clusterUpdate nc] else []
    let s0 := if finAdd then applyClusterUpdate s nc else s
    if nc.deletionTimestamp.isSome then
      if containsFinalizer nc then
        let nc2 := removeFinalizer nc
        { outcome := Outcome.ok ⟨false⟩
          trace := tr0 ++ [Mutation.runFinalize, Mutation.clusterUpdate nc2]
          state := applyClusterUpdate s0 nc2 }
      else { outcome := Outcome.ok ⟨false⟩, trace := tr0, state := s0 }
    else
      configStep now nc (calculateConfigHash nc.spec.nginxConf) tr0 s0

/-! ### Store well-formedness predicates -/

/-- Every stored object's own name equals its store key, as the API server
guarantees for fetched objects (an update call persists under the object's
own name, so this links fetch keys and update keys). -/
def NamesConsistent (s : ClusterState) : Prop :=
  (∀ k c, alookup s.clusters k = some c → c.name = k) ∧
  (∀ k cm, alookup s.configMaps k = some cm → cm.name = k) ∧
  (∀ k d, alookup s.deployments k = some d → d.name = k) ∧
  (∀ k sv, alookup s.services k = some sv → sv.name = k)

/-- Well-formedness of the child objects a pass for req would fetch: the
Deployment's replica pointer and pod-template annotation map are non-nil,
and, when the ConfigMap's fingerprint annotation mismatches the computed
hash, its Data and Annotations maps are non-nil.  These are exactly the
places the controller dereferences or assigns into without a nil check. -/
def FetchedChildrenWellFormed (req : String) (s : ClusterState) : Bool :=
  match alookup s.clusters req with
  | none => true
  | some nc =>
    (match alookup s.configMaps (configMapKey nc.name) with
     | none => true
     | some cm =>
        if mread cm.annotations "config-hash" = calculateConfigHash nc.spec.nginxConf then true
        else cm.data.isSome && cm.annotations.isSome) &&
    (match alookup s.deployments nc.name with
     | none => true
     | some d => d.replicas.isSome && d.templateAnnotations.isSome)

/-! ### Concrete example states used by witnesses and counterexamples -/

/-- Zero value of the status record. -/
def zeroStatus : NginxClusterStatusV :=
  { replicas := 0, readyReplicas := 0, configHash := "", lastUpdateTime := none }

/-- Example spec: two replicas, defaulted image and configuration. -/
def webSpec : NginxClusterSpecV := { replicas := 2, image := "", nginxConf := "" }

/-- Example cluster resource named web carrying the finalizer. -/
def webCluster : NginxClusterV :=
  { name := "web", ns := "default", deletionTimestamp := none,
    finalizers := [nginxClusterFinalizer], spec := webSpec, status := zeroStatus }

/-- The empty store. -/
def emptyState : ClusterState := { clusters := [], configMaps := [], deployments := [], services := [] }

/-- Store holding only the web cluster resource. -/
def freshState : ClusterState := { emptyState with clusters := [("web", webCluster)] }

/-- ConfigMap of the web cluster converged at the digest of the empty
configuration text. -/
def webConfigMap : ConfigMapV :=
  { name := "web-nginx-config", ns := "default",
    annotations := some [("config-hash", "e3b0c44298fc1c14")],
    data := some [("nginx.conf", getDefaultNginxConf)],
    ownerRef := some "web" }

/-- Deployment of the web cluster converged at the digest of the empty
configuration text, with two observed replicas. -/
def webDeployment : DeploymentV :=
  { deploymentForNginxCluster webCluster "e3b0c44298fc1c14" with
    statusReplicas := 2, statusReadyReplicas := 2 }

/-- Service of the web cluster. -/
def webService : ServiceV := serviceForNginxCluster webCluster

/-- Web cluster resource with its status published at instant 0. -/
def convergedCluster : NginxClusterV :=
  { webCluster with
    status := { replicas := 2, readyReplicas := 2,
                configHash := "e3b0c44298fc1c14", lastUpdateTime := some 0 } }

/-- Fully converged store for the web cluster, status published at
instant 0. -/
def convergedState : ClusterState :=
  { clusters := [("web", convergedCluster)]
    configMaps := [("web-nginx-config", webConfigMap)]
    deployments := [("web", webDeployment)]
    services := [("web", webService)] }

/-- Web cluster resource after its spec was edited to configuration
text x. -/
def confChangedCluster : NginxClusterV :=
  { webCluster with
    spec := { replicas := 2, image := "", nginxConf := "x" },
    status := { replicas := 2, readyReplicas := 2,
                configHash := "e3b0c44298fc1c14", lastUpdateTime := some 0 } }

/-- Converged store whose cluster spec was then edited to configuration
text x, so the stored fingerprints no longer match the spec. -/
def confChangedState : ClusterState :=
  { convergedState with clusters := [("web", confChangedCluster)] }

/-- ConfigMap the pass on confChangedState persists: raw text x and its
digest. -/
def confChangedCM : ConfigMapV :=
  { webConfigMap with
    data := some (mset [("nginx.conf", getDefaultNginxConf)] "nginx.conf" "x"),
    annotations := some (mset [("config-hash", "e3b0c44298fc1c14")] "config-hash" (calculateConfigHash "x")) }

/-- Deployment the pass on confChangedState persists at a given instant:
pod template retagged with the digest of x and a fresh restart marker. -/
def confChangedDep (now : Nat) : DeploymentV :=
  { webDeployment with
    templateAnnotations := some (mset (mset [("config-hash", "e3b0c44298fc1c14")] "config-hash" (calculateConfigHash "x")) "restartedAt" (formatRFC3339 now)) }

/-- ConfigMap that was converged at configuration text x before the spec
reverted to the empty configuration text. -/
def emptyConfChangedCM : ConfigMapV :=
  { name := "web-nginx-config", ns := "default",
    annotations := some [("config-hash", calculateConfigHash "x")],
    data := some [("nginx.conf", "x")],
    ownerRef := some "web" }

/-- Converged web store whose ConfigMap still carries text x and its digest
while the cluster spec's configuration text is empty again. -/
def emptyConfState : ClusterState :=
  { convergedState with configMaps := [("web-nginx-config", emptyConfChangedCM)] }

/-- Deployment whose pod template still carries the digest of text x. -/
def staleTagDep : DeploymentV :=
  { webDeployment with templateAnnotations := some [("config-hash", calculateConfigHash "x")] }

/-- Store converged at configuration text x throughout, after the cluster
spec's configuration text reverted to empty: both the ConfigMap and the
pod template still carry the digest of x. -/
def staleTagState : ClusterState :=
  { convergedState with
    configMaps := [("web-nginx-config", emptyConfChangedCM)]
    deployments := [("web", staleTagDep)] }

/-- ConfigMap the pass on staleTagState persists: raw empty payload tagged
with the digest of the empty string. -/
def staleCM1 : ConfigMapV :=
  { emptyConfChangedCM with
    data := some (mset [("nginx.conf", "x")] "nginx.conf" ""),
    annotations := some (mset [("config-hash", calculateConfigHash "x")] "config-hash" (calculateConfigHash "")) }

/-- Deployment the pass on staleTagState persists at a given instant. -/
def staleDep1 (now : Nat) : DeploymentV :=
  { staleTagDep with
    templateAnnotations := some (mset (mset [("config-hash", calculateConfigHash "x")] "config-hash" (calculateConfigHash "")) "restartedAt" (formatRFC3339 now)) }

/-- Web cluster resource after its spec was edited to five replicas. -/
def scaledCluster : NginxClusterV :=
  { webCluster with
    spec := { replicas := 5, image := "", nginxConf := "" },
    status := { replicas := 2, readyReplicas := 2,
                configHash := "e3b0c44298fc1c14", lastUpdateTime := some 0 } }

/-- Converged store whose cluster spec was then edited to five replicas. -/
def scaledState : ClusterState :=
  { convergedState with clusters := [("web", scaledCluster)] }

/-- Cluster resource marked for deletion at instant 7 while carrying no
finalizer at all. -/
def delNoFinCluster : NginxClusterV :=
  { name := "web", ns := "default", deletionTimestamp := some 7,
    finalizers := [], spec := webSpec, status := zeroStatus }

/-- Store holding only the deletion-marked, finalizer-free web cluster. -/
def delNoFinState : ClusterState := { emptyState with clusters := [("web", delNoFinCluster)] }

/-- Cluster resource marked for deletion at instant 7 still carrying the
finalizer. -/
def delFinCluster : NginxClusterV :=
  { name := "web", ns := "default", deletionTimestamp := some 7,
    finalizers := [nginxClusterFinalizer], spec := webSpec, status := zeroStatus }

/-- Store holding only the deletion-marked web cluster with finalizer. -/
def delFinState : ClusterState := { emptyState with clusters := [("web", delFinCluster)] }

end NginxOperator

namespace NginxOperator

/-! ### Map and store lemmas -/

@[simp] theorem mget_mset_self (m : StrMap) (k v : String) : mget (mset m k v) k = v := by
  induction m with
  | nil => simp [mget, mset]
  | cons hd tl ih =>
    by_cases h : hd.1 = k
    · simp [mset, mget, h]
    · simp [mset, mget, h, ih]

theorem mget_mset_ne (m : StrMap) (k k' v : String) (h : k ≠ k') :
    mget (mset m k v) k' = mget m k' := by
  induction m with
  | nil => simp [mget, mset, h]
  | cons hd tl ih =>
    by_cases h' : hd.1 = k
    · simp [mset, mget, h', h, ih]
    · simp only [mset, h', if_false, mget]
      by_cases h'' : hd.1 = k' <;> simp [h'', ih]

@[simp] theorem alookup_aset_self {α : Type} (l : List (String × α)) (k : String) (v : α) :
    alookup (aset l k v) k = some v := by
  induction l with
  | nil => simp [alookup, aset]
  | cons hd tl ih =>
    by_cases h : hd.1 = k
    · simp [aset, alookup, h]
    · simp [aset, alookup, h, ih]

theorem alookup_aset_ne {α : Type} (l : List (String × α)) (k k' : String) (v : α)
    (h : k ≠ k') : alookup (aset l k v) k' = alookup l k' := by
  induction l with
  | nil => simp [alookup, aset, h]
  | cons hd tl ih =>
    by_cases h' : hd.1 = k
    · simp [aset, alookup, h', h, ih]
    · simp only [aset, h', if_false, alookup]
      by_cases h'' : hd.1 = k' <;> simp [h'', ih]

theorem alookup_singleton {α : Type} (a k : String) (v w : α) :
    alookup [(a, v)] k = some w ↔ a = k ∧ w = v := by
  constructor
  · intro h
    by_cases hak : a = k
    · simp [alookup, hak] at h
      exact ⟨hak, h.symm⟩
    · simp [alookup, hak] at h
  · rintro ⟨hak, rfl⟩
    simp [alookup, hak]

/-! ### Finalizer lemmas -/

@[simp] theorem containsFinalizer_addFinalizer (m : NginxClusterV) :
    containsFinalizer (addFinalizer m) = true := by
  simp [containsFinalizer, addFinalizer]

@[simp] theorem containsFinalizer_removeFinalizer (m : NginxClusterV) :
    containsFinalizer (removeFinalizer m) = false := by
  simp [containsFinalizer, removeFinalizer]

@[simp] theorem addFinalizer_name (m : NginxClusterV) : (addFinalizer m).name = m.name := rfl

@[simp] theorem addFinalizer_spec (m : NginxClusterV) : (addFinalizer m).spec = m.spec := rfl

@[simp] theorem addFinalizer_deletionTimestamp (m : NginxClusterV) :
    (addFinalizer m).deletionTimestamp = m.deletionTimestamp := rfl

@[simp] theorem addFinalizer_status (m : NginxClusterV) : (addFinalizer m).status = m.status := rfl

/-! ### Symbolic execution lemmas for the reconcile pass -/

theorem reconcile_notfound (now : Nat) (req : String) (s : ClusterState)
    (h : alookup s.clusters req = none) :
    reconcile now req s = ⟨Outcome.ok ⟨false⟩, [], s⟩ := by
  simp [reconcile, h]

theorem reconcile_run (now : Nat) (req : String) (s : ClusterState) (nc : NginxClusterV)
    (h : alookup s.clusters req = some nc)
    (hfin : containsFinalizer nc = true) (hdel : nc.deletionTimestamp = none) :
    reconcile now req s = configStep now nc (calculateConfigHash nc.spec.nginxConf) [] s := by
  simp [reconcile, h, hfin, hdel]

theorem reconcile_run_addfin (now : Nat) (req : String) (s : ClusterState) (nc : NginxClusterV)
    (h : alookup s.clusters req = some nc)
    (hfin : containsFinalizer nc = false) (hdel : nc.deletionTimestamp = none) :
    reconcile now req s =
      configStep now (addFinalizer nc) (calculateConfigHash nc.spec.nginxConf)
        [Mutation.clusterUpdate (addFinalizer nc)] (applyClusterUpdate s (addFinalizer nc)) := by
  simp [reconcile, h, hfin, hdel]

theorem reconcile_del_fin (now : Nat) (req : String) (s : ClusterState) (nc : NginxClusterV)
    (t : Nat) (h : alookup s.clusters req = some nc)
    (hfin : containsFinalizer nc = true) (hdel : nc.deletionTimestamp = some t) :
    reconcile now req s =
      ⟨Outcome.ok ⟨false⟩,
       [Mutation.runFinalize, Mutation.clusterUpdate (removeFinalizer nc)],
       applyClusterUpdate s (removeFinalizer nc)⟩ := by
  simp [reconcile, h, hfin, hdel]

theorem reconcile_del_nofin (now : Nat) (req : String) (s : ClusterState) (nc : NginxClusterV)
    (t : Nat) (h : alookup s.clusters req = some nc)
    (hfin : containsFinalizer nc = false) (hdel : nc.deletionTimestamp = some t) :
    reconcile now req s =
      ⟨Outcome.ok ⟨false⟩,
       [Mutation.clusterUpdate (addFinalizer nc), Mutation.runFinalize,
        Mutation.clusterUpdate (removeFinalizer (addFinalizer nc))],
       applyClusterUpdate (applyClusterUpdate s (addFinalizer nc))
         (removeFinalizer (addFinalizer nc))⟩ := by
  simp [reconcile, h, hfin, hdel]

theorem configStep_absent (now : Nat) (nc : NginxClusterV) (F : String)
    (tr : List Mutation) (s : ClusterState)
    (h : alookup s.configMaps (configMapKey nc.name) = none) :
    configStep now nc F tr s =
      deploymentStep now nc F (tr ++ [Mutation.cmCreate (configMapForNginxCluster nc F)])
        { s with configMaps := aset s.configMaps (configMapKey nc.name) (configMapForNginxCluster nc F) } := by
  have h' : alookup s.configMaps (nc.name ++ configMapNameSuffix) = none := h
  simp [configStep, h', configMapForNginxCluster, configMapKey]

theorem configStep_match (now : Nat) (nc : NginxClusterV) (F : String)
    (tr : List Mutation) (s : ClusterState) (cm0 : ConfigMapV)
    (h : alookup s.configMaps (configMapKey nc.name) = some cm0)
    (hmatch : mread cm0.annotations "config-hash" = F) :
    configStep now nc F tr s = deploymentStep now nc F tr s := by
  simp [configStep, h, hmatch]

theorem configStep_update (now : Nat) (nc : NginxClusterV) (F : String)
    (tr : List Mutation) (s : ClusterState) (cm0 cm1 : ConfigMapV) (dm am : StrMap)
    (h : alookup s.configMaps (configMapKey nc.name) = some cm0)
    (hne : mread cm0.annotations "config-hash" ≠ F)
    (hd : cm0.data = some dm) (ha : cm0.annotations = some am)
    (hcm1 : cm1 = { cm0 with data := some (mset dm "nginx.conf" nc.spec.nginxConf),
                             annotations := some (mset am "config-hash" F) }) :
    configStep now nc F tr s =
      deploymentStep now nc F (tr ++ [Mutation.cmUpdate cm1])
        { s with configMaps := aset s.configMaps cm0.name cm1 } := by
  rw [ha] at hne
  simp [configStep, h, hne, hd, ha, hcm1]

theorem configStep_panic_data (now : Nat) (nc : NginxClusterV) (F : String)
    (tr : List Mutation) (s : ClusterState) (cm0 : ConfigMapV)
    (h : alookup s.configMaps (configMapKey nc.name) = some cm0)
    (hne : mread cm0.annotations "config-hash" ≠ F) (hd : cm0.data = none) :
    configStep now nc F tr s = ⟨Outcome.panicked, tr, s⟩ := by
  simp [configStep, h, hne, hd]

theorem configStep_panic_ann (now : Nat) (nc : NginxClusterV) (F : String)
    (tr : List Mutation) (s : ClusterState) (cm0 : ConfigMapV) (dm : StrMap)
    (h : alookup s.configMaps (configMapKey nc.name) = some cm0)
    (hne : mread cm0.annotations "config-hash" ≠ F)
    (hd : cm0.data = some dm) (ha : cm0.annotations = none) :
    configStep now nc F tr s = ⟨Outcome.panicked, tr, s⟩ := by
  rw [ha] at hne
  simp [configStep, h, hne, hd, ha]

theorem deploymentStep_absent (now : Nat) (nc : NginxClusterV) (F : String)
    (tr : List Mutation) (s : ClusterState)
    (h : alookup s.deployments nc.name = none) :
    deploymentStep now nc F tr s =
      ⟨Outcome.ok ⟨true⟩,
       tr ++ [Mutation.depCreate (deploymentForNginxCluster nc F)],
       { s with deployments := aset s.deployments nc.name (deploymentForNginxCluster nc F) }⟩ := by
  simp [deploymentStep, h, deploymentForNginxCluster]

theorem deploymentStep_nil_replicas (now : Nat) (nc : NginxClusterV) (F : String)
    (tr : List Mutation) (s : ClusterState) (d0 : DeploymentV)
    (h : alookup s.deployments nc.name = some d0) (hr : d0.replicas = none) :
    deploymentStep now nc F tr s = ⟨Outcome.panicked, tr, s⟩ := by
  simp [deploymentStep, h, hr]

theorem deploymentStep_scale (now : Nat) (nc : NginxClusterV) (F : String)
    (tr : List Mutation) (s : ClusterState) (d0 : DeploymentV) (n : Int)
    (h : alookup s.deployments nc.name = some d0) (hr : d0.replicas = some n)
    (hne : n ≠ nc.spec.replicas) :
    deploymentStep now nc F tr s =
      ⟨Outcome.ok ⟨true⟩,
       tr ++ [Mutation.depUpdate { d0 with replicas := some nc.spec.replicas }],
       { s with deployments := aset s.deployments d0.name { d0 with replicas := some nc.spec.replicas } }⟩ := by
  simp [deploymentStep, h, hr, hne]

theorem deploymentStep_template_same (now : Nat) (nc : NginxClusterV) (F : String)
    (tr : List Mutation) (s : ClusterState) (d0 : DeploymentV)
    (h : alookup s.deployments nc.name = some d0)
    (hr : d0.replicas = some nc.spec.replicas)
    (ht : mread d0.templateAnnotations "config-hash" = F) :
    deploymentStep now nc F tr s = serviceAndStatusStep now nc F d0 tr s := by
  simp [deploymentStep, h, hr, ht]

theorem deploymentStep_template_diff (now : Nat) (nc : NginxClusterV) (F : String)
    (tr : List Mutation) (s : ClusterState) (d0 d1 : DeploymentV) (ta : StrMap)
    (h : alookup s.deployments nc.name = some d0)
    (hr : d0.replicas = some nc.spec.replicas)
    (ht : mread d0.templateAnnotations "config-hash" ≠ F)
    (hta : d0.templateAnnotations = some ta)
    (hd1 : d1 = { d0 with templateAnnotations := some (mset (mset ta "config-hash" F) "restartedAt" (formatRFC3339 now)) }) :
    deploymentStep now nc F tr s =
      serviceAndStatusStep now nc F d1 (tr ++ [Mutation.depUpdate d1])
        { s with deployments := aset s.deployments d0.name d1 } := by
  rw [hta] at ht
  simp [deploymentStep, h, hr, ht, hta, hd1]

theorem deploymentStep_template_panic (now : Nat) (nc : NginxClusterV) (F : String)
    (tr : List Mutation) (s : ClusterState) (d0 : DeploymentV)
    (h : alookup s.deployments nc.name = some d0)
    (hr : d0.replicas = some nc.spec.replicas)
    (ht : mread d0.templateAnnotations "config-hash" ≠ F)
    (hta : d0.templateAnnotations = none) :
    deploymentStep now nc F tr s = ⟨Outcome.panicked, tr, s⟩ := by
  rw [hta] at ht
  simp [deploymentStep, h, hr, ht, hta]

theorem serviceAndStatusStep_present (now : Nat) (nc : NginxClusterV) (F : String)
    (dep : DeploymentV) (tr : List Mutation) (s : ClusterState) (sv : ServiceV)
    (h : alookup s.services nc.name = some sv) :
    serviceAndStatusStep now nc F dep tr s =
      ⟨Outcome.ok ⟨false⟩,
       tr ++ [Mutation.statusUpdate (pubStatus dep F now)],
       applyStatusUpdate s { nc with status := pubStatus dep F now }⟩ := by
  simp [serviceAndStatusStep, h]

theorem applyClusterUpdate_unmarked (s : ClusterState) (c : NginxClusterV)
    (h : c.deletionTimestamp = none) :
    applyClusterUpdate s c = { s with clusters := aset s.clusters c.name c } := by
  simp [applyClusterUpdate, h]

@[simp] theorem applyClusterUpdate_configMaps (s : ClusterState) (c : NginxClusterV) :
    (applyClusterUpdate s c).configMaps = s.configMaps := by
  unfold applyClusterUpdate; split <;> rfl

@[simp] theorem applyClusterUpdate_deployments (s : ClusterState) (c : NginxClusterV) :
    (applyClusterUpdate s c).deployments = s.deployments := by
  unfold applyClusterUpdate; split <;> rfl

@[simp] theorem applyClusterUpdate_services (s : ClusterState) (c : NginxClusterV) :
    (applyClusterUpdate s c).services = s.services := by
  unfold applyClusterUpdate; split <;> rfl

@[simp] theorem applyStatusUpdate_configMaps (s : ClusterState) (c : NginxClusterV) :
    (applyStatusUpdate s c).configMaps = s.configMaps := by
  unfold applyStatusUpdate; split <;> rfl

@[simp] theorem applyStatusUpdate_deployments (s : ClusterState) (c : NginxClusterV) :
    (applyStatusUpdate s c).deployments = s.deployments := by
  unfold applyStatusUpdate; split <;> rfl

@[simp] theorem applyStatusUpdate_services (s : ClusterState) (c : NginxClusterV) :
    (applyStatusUpdate s c).services = s.services := by
  unfold applyStatusUpdate; split <;> rfl

theorem serviceAndStatusStep_absent (now : Nat) (nc : NginxClusterV) (F : String)
    (dep : DeploymentV) (tr : List Mutation) (s : ClusterState)
    (h : alookup s.services nc.name = none) :
    serviceAndStatusStep now nc F dep tr s =
      ⟨Outcome.ok ⟨false⟩,
       tr ++ [Mutation.svcCreate (serviceForNginxCluster nc),
              Mutation.statusUpdate (pubStatus dep F now)],
       applyStatusUpdate
         { s with services := aset s.services nc.name (serviceForNginxCluster nc) }
         { nc with status := pubStatus dep F now }⟩ := by
  simp [serviceAndStatusStep, h, serviceForNginxCluster]

@[simp] theorem serviceAndStatusStep_outcome (now : Nat) (nc : NginxClusterV) (F : String)
    (dep : DeploymentV) (tr : List Mutation) (s : ClusterState) :
    (serviceAndStatusStep now nc F dep tr s).outcome = Outcome.ok ⟨false⟩ := by
  unfold serviceAndStatusStep
  rfl

theorem serviceAndStatusStep_trace_append (now : Nat) (nc : NginxClusterV) (F : String)
    (dep : DeploymentV) (tr : List Mutation) (s : ClusterState) :
    ∃ rest, (serviceAndStatusStep now nc F dep tr s).trace = tr ++ rest := by
  rcases h : alookup s.services nc.name with _ | sv
  · rw [serviceAndStatusStep_absent now nc F dep tr s h]
    exact ⟨_, rfl⟩
  · rw [serviceAndStatusStep_present now nc F dep tr s sv h]
    exact ⟨_, rfl⟩

theorem deploymentStep_trace_append (now : Nat) (nc : NginxClusterV) (F : String)
    (tr : List Mutation) (s : ClusterState) :
    ∃ rest, (deploymentStep now nc F tr s).trace = tr ++ rest := by
  rcases hd : alookup s.deployments nc.name with _ | d0
  · rw [deploymentStep_absent now nc F tr s hd]
    exact ⟨_, rfl⟩
  · rcases hr : d0.replicas with _ | n
    · rw [deploymentStep_nil_replicas now nc F tr s d0 hd hr]
      exact ⟨[], by simp⟩
    · by_cases hn : n = nc.spec.replicas
      · subst hn
        by_cases ht : mread d0.templateAnnotations "config-hash" = F
        · rw [deploymentStep_template_same now nc F tr s d0 hd hr ht]
          exact serviceAndStatusStep_trace_append now nc F d0 tr s
        · rcases hta : d0.templateAnnotations with _ | ta
          · rw [deploymentStep_template_panic now nc F tr s d0 hd hr ht hta]
            exact ⟨[], by simp⟩
          · rw [deploymentStep_template_diff now nc F tr s d0 _ ta hd hr ht hta rfl]
            obtain ⟨r, hrr⟩ := serviceAndStatusStep_trace_append now nc F
              { d0 with templateAnnotations := some (mset (mset ta "config-hash" F) "restartedAt" (formatRFC3339 now)) }
              (tr ++ [Mutation.depUpdate { d0 with templateAnnotations := some (mset (mset ta "config-hash" F) "restartedAt" (formatRFC3339 now)) }])
              { s with deployments := aset s.deployments d0.name { d0 with templateAnnotations := some (mset (mset ta "config-hash" F) "restartedAt" (formatRFC3339 now)) } }
            exact ⟨_, by rw [hrr, List.append_assoc]⟩
      · rw [deploymentStep_scale now nc F tr s d0 n hd hr hn]
        exact ⟨_, rfl⟩

theorem configStep_trace_append (now : Nat) (nc : NginxClusterV) (F : String)
    (tr : List Mutation) (s : ClusterState) :
    ∃ rest, (configStep now nc F tr s).trace = tr ++ rest := by
  rcases hc : alookup s.configMaps (configMapKey nc.name) with _ | cm0
  · rw [configStep_absent now nc F tr s hc]
    obtain ⟨r, hrr⟩ := deploymentStep_trace_append now nc F
      (tr ++ [Mutation.cmCreate (configMapForNginxCluster nc F)])
      { s with configMaps := aset s.configMaps (configMapKey nc.name) (configMapForNginxCluster nc F) }
    exact ⟨_, by rw [hrr, List.append_assoc]⟩
  · by_cases hm : mread cm0.annotations "config-hash" = F
    · rw [configStep_match now nc F tr s cm0 hc hm]
      exact deploymentStep_trace_append now nc F tr s
    · rcases hdt : cm0.data with _ | dm
      · rw [configStep_panic_data now nc F tr s cm0 hc hm hdt]
        exact ⟨[], by simp⟩
      · rcases ha : cm0.annotations with _ | am
        · rw [configStep_panic_ann now nc F tr s cm0 dm hc hm hdt ha]
          exact ⟨[], by simp⟩
        · rw [configStep_update now nc F tr s cm0 _ dm am hc hm hdt ha rfl]
          obtain ⟨r, hrr⟩ := deploymentStep_trace_append now nc F
            (tr ++ [Mutation.cmUpdate { cm0 with data := some (mset dm "nginx.conf" nc.spec.nginxConf), annotations := some (mset am "config-hash" F) }])
            { s with configMaps := aset s.configMaps cm0.name { cm0 with data := some (mset dm "nginx.conf" nc.spec.nginxConf), annotations := some (mset am "config-hash" F) } }
          exact ⟨_, by rw [hrr, List.append_assoc]⟩

/-! ### Claim C8 -/

/-- C8: a cluster resource marked for deletion that still carries the
finalizer has the cleanup hook run exactly once in the pass, then the
finalizer removed and persisted, and the pass ends there with success; and
a reconcile request whose cluster resource is absent performs no mutation
and returns success rather than an error. -/
theorem deletion_lifecycle (now : Nat) (req : String) (s : ClusterState) :
    (∀ nc t, alookup s.clusters req = some nc → containsFinalizer nc = true →
      nc.deletionTimestamp = some t →
      reconcile now req s =
        ⟨Outcome.ok ⟨false⟩,
         [Mutation.runFinalize, Mutation.clusterUpdate (removeFinalizer nc)],
         applyClusterUpdate s (removeFinalizer nc)⟩) ∧
    (alookup s.clusters req = none →
      reconcile now req s = ⟨Outcome.ok ⟨false⟩, [], s⟩) :=
  ⟨fun nc t h hfin hdel => reconcile_del_fin now req s nc t h hfin hdel,
   fun h => reconcile_notfound now req s h⟩

/-- Witness for C8: the deletion-marked web cluster with finalizer, and a
request against the empty store. -/
theorem deletion_lifecycle_witness :
    (reconcile 0 "web" delFinState =
      ⟨Outcome.ok ⟨false⟩,
       [Mutation.runFinalize, Mutation.clusterUpdate (removeFinalizer delFinCluster)],
       applyClusterUpdate delFinState (removeFinalizer delFinCluster)⟩) ∧
    (reconcile 0 "other" emptyState = ⟨Outcome.ok ⟨false⟩, [], emptyState⟩) :=
  ⟨(deletion_lifecycle 0 "web" delFinState).1 delFinCluster 7 (by decide) (by decide) (by decide),
   (deletion_lifecycle 0 "other" emptyState).2 (by decide)⟩

/-! ### Claim C7 -/

/-- C7 counterexample: for the deletion-marked web cluster that lacks the
finalizer, the pass persists an update that adds the finalizer to that
deletion-marked resource, so the reconciler does add the finalizer to a
resource already marked for deletion. -/
theorem finalizer_added_while_deleting :
    delNoFinCluster.deletionTimestamp = some 7 ∧
    containsFinalizer delNoFinCluster = false ∧
    Mutation.clusterUpdate (addFinalizer delNoFinCluster) ∈ (reconcile 0 "web" delNoFinState).trace ∧
    containsFinalizer (addFinalizer delNoFinCluster) = true ∧
    (addFinalizer delNoFinCluster).deletionTimestamp = some 7 := by decide

/-- C7 amended: the finalizer is attached (and persisted) whenever it is
absent, with no deletion-timestamp guard: the pass's first mutation adds
it; on a deletion-marked resource the same pass then runs cleanup and
removes it again. -/
theorem finalizer_attach_unconditional (now : Nat) (req : String) (s : ClusterState)
    (nc : NginxClusterV) (h : alookup s.clusters req = some nc)
    (hfin : containsFinalizer nc = false) :
    (reconcile now req s).trace.head? = some (Mutation.clusterUpdate (addFinalizer nc)) ∧
    (∀ t, nc.deletionTimestamp = some t →
      (reconcile now req s).trace =
        [Mutation.clusterUpdate (addFinalizer nc), Mutation.runFinalize,
         Mutation.clusterUpdate (removeFinalizer (addFinalizer nc))]) := by
  constructor
  · rcases hdel : nc.deletionTimestamp with _ | t
    · rw [reconcile_run_addfin now req s nc h hfin hdel]
      obtain ⟨r, hr⟩ := configStep_trace_append now (addFinalizer nc)
        (calculateConfigHash nc.spec.nginxConf)
        [Mutation.clusterUpdate (addFinalizer nc)] (applyClusterUpdate s (addFinalizer nc))
      rw [hr]
      rfl
    · rw [reconcile_del_nofin now req s nc t h hfin hdel]
      rfl
  · intro t hdel
    rw [reconcile_del_nofin now req s nc t h hfin hdel]

/-- Witness for C7 amended at the deletion-marked finalizer-free store. -/
theorem finalizer_attach_unconditional_witness :
    (reconcile 0 "web" delNoFinState).trace.head? =
      some (Mutation.clusterUpdate (addFinalizer delNoFinCluster)) ∧
    (reconcile 0 "web" delNoFinState).trace =
      [Mutation.clusterUpdate (addFinalizer delNoFinCluster), Mutation.runFinalize,
       Mutation.clusterUpdate (removeFinalizer (addFinalizer delNoFinCluster))] :=
  ⟨(finalizer_attach_unconditional 0 "web" delNoFinState delNoFinCluster (by decide) (by decide)).1,
   (finalizer_attach_unconditional 0 "web" delNoFinState delNoFinCluster (by decide) (by decide)).2 7 (by decide)⟩

/-! ### Claim C6 -/

/-- C6 counterexample: the ConfigMap the reconciler builds and fetches for
the web cluster is not named with the -config suffix the claim states. -/
theorem configmap_name_not_cluster_config :
    (configMapForNginxCluster webCluster "h").name ≠ webCluster.name ++ "-config" ∧
    configMapKey webCluster.name ≠ webCluster.name ++ "-config" := by decide

/-- C6 amended: the config object's name is the cluster name followed by
the suffix -nginx-config, while the workload and endpoint objects are both
named exactly by the cluster name; the reconciler fetches and creates each
child under that derived name. -/
theorem child_object_names (nc : NginxClusterV) (F : String) :
    (configMapForNginxCluster nc F).name = nc.name ++ "-nginx-config" ∧
    (deploymentForNginxCluster nc F).name = nc.name ∧
    (serviceForNginxCluster nc).name = nc.name ∧
    configMapKey nc.name = nc.name ++ "-nginx-config" ∧
    (∀ now req s, alookup s.clusters req = some nc → containsFinalizer nc = true →
      nc.deletionTimestamp = none →
      alookup s.configMaps (configMapKey nc.name) = none →
      alookup s.deployments nc.name = none →
      alookup (reconcile now req s).state.configMaps (nc.name ++ "-nginx-config") =
        some (configMapForNginxCluster nc (calculateConfigHash nc.spec.nginxConf)) ∧
      alookup (reconcile now req s).state.deployments nc.name =
        some (deploymentForNginxCluster nc (calculateConfigHash nc.spec.nginxConf))) := by
  refine ⟨rfl, rfl, rfl, rfl, ?_⟩
  intro now req s hcl hfin hdel hcm hdep
  rw [reconcile_run now req s nc hcl hfin hdel]
  rw [configStep_absent now nc (calculateConfigHash nc.spec.nginxConf) [] s hcm]
  have hdep' : alookup ({ s with configMaps := aset s.configMaps (configMapKey nc.name) (configMapForNginxCluster nc (calculateConfigHash nc.spec.nginxConf)) } : ClusterState).deployments nc.name = none := hdep
  rw [deploymentStep_absent _ _ _ _ _ hdep']
  have hkey : nc.name ++ "-nginx-config" = configMapKey nc.name := rfl
  rw [hkey]
  exact ⟨by simp, by simp⟩

/-- Witness for C6 amended at the fresh web store with no children. -/
theorem child_object_names_witness :
    (configMapForNginxCluster webCluster "h").name = webCluster.name ++ "-nginx-config" ∧
    (alookup (reconcile 0 "web" freshState).state.configMaps (webCluster.name ++ "-nginx-config") =
       some (configMapForNginxCluster webCluster (calculateConfigHash webCluster.spec.nginxConf)) ∧
     alookup (reconcile 0 "web" freshState).state.deployments webCluster.name =
       some (deploymentForNginxCluster webCluster (calculateConfigHash webCluster.spec.nginxConf))) :=
  ⟨(child_object_names webCluster "h").1,
   (child_object_names webCluster "h").2.2.2.2 0 "web" freshState
     (by decide) (by decide) (by decide) (by decide) (by decide)⟩

/-! ### Claim C9 -/

theorem serviceAndStatusStep_service_frame (now : Nat) (nc : NginxClusterV) (F : String)
    (dep : DeploymentV) (tr : List Mutation) (s : ClusterState) (sv : ServiceV)
    (hsv : alookup s.services nc.name = some sv)
    (hno : ∀ x, Mutation.svcCreate x ∉ tr) :
    (serviceAndStatusStep now nc F dep tr s).state.services = s.services ∧
    ∀ x, Mutation.svcCreate x ∉ (serviceAndStatusStep now nc F dep tr s).trace := by
  rw [serviceAndStatusStep_present now nc F dep tr s sv hsv]
  refine ⟨by simp, ?_⟩
  intro x
  simp [hno x]

theorem deploymentStep_service_frame (now : Nat) (nc : NginxClusterV) (F : String)
    (tr : List Mutation) (s : ClusterState) (sv : ServiceV)
    (hsv : alookup s.services nc.name = some sv)
    (hno : ∀ x, Mutation.svcCreate x ∉ tr) :
    (deploymentStep now nc F tr s).state.services = s.services ∧
    ∀ x, Mutation.svcCreate x ∉ (deploymentStep now nc F tr s).trace := by
  rcases hd : alookup s.deployments nc.name with _ | d0
  · rw [deploymentStep_absent now nc F tr s hd]
    refine ⟨rfl, ?_⟩
    intro x
    simp [hno x]
  · rcases hr : d0.replicas with _ | n
    · rw [deploymentStep_nil_replicas now nc F tr s d0 hd hr]
      exact ⟨rfl, hno⟩
    · by_cases hn : n = nc.spec.replicas
      · subst hn
        by_cases ht : mread d0.templateAnnotations "config-hash" = F
        · rw [deploymentStep_template_same now nc F tr s d0 hd hr ht]
          exact serviceAndStatusStep_service_frame now nc F d0 tr s sv hsv hno
        · rcases hta : d0.templateAnnotations with _ | ta
          · rw [deploymentStep_template_panic now nc F tr s d0 hd hr ht hta]
            exact ⟨rfl, hno⟩
          · rw [deploymentStep_template_diff now nc F tr s d0 _ ta hd hr ht hta rfl]
            exact serviceAndStatusStep_service_frame now nc F _ _ _ sv hsv
              (by intro x; simp [hno x])
      · rw [deploymentStep_scale now nc F tr s d0 n hd hr hn]
        refine ⟨rfl, ?_⟩
        intro x
        simp [hno x]

theorem configStep_service_frame (now : Nat) (nc : NginxClusterV) (F : String)
    (tr : List Mutation) (s : ClusterState) (sv : ServiceV)
    (hsv : alookup s.services nc.name = some sv)
    (hno : ∀ x, Mutation.svcCreate x ∉ tr) :
    (configStep now nc F tr s).state.services = s.services ∧
    ∀ x, Mutation.svcCreate x ∉ (configStep now nc F tr s).trace := by
  rcases hc : alookup s.configMaps (configMapKey nc.name) with _ | cm0
  · rw [configStep_absent now nc F tr s hc]
    exact deploymentStep_service_frame now nc F _ _ sv hsv (by intro x; simp [hno x])
  · by_cases hm : mread cm0.annotations "config-hash" = F
    · rw [configStep_match now nc F tr s cm0 hc hm]
      exact deploymentStep_service_frame now nc F tr s sv hsv hno
    · rcases hdt : cm0.data with _ | dm
      · rw [configStep_panic_data now nc F tr s cm0 hc hm hdt]
        exact ⟨rfl, hno⟩
      · rcases ha : cm0.annotations with _ | am
        · rw [configStep_panic_ann now nc F tr s cm0 dm hc hm hdt ha]
          exact ⟨rfl, hno⟩
        · rw [configStep_update now nc F tr s cm0 _ dm am hc hm hdt ha rfl]
          exact deploymentStep_service_frame now nc F _ _ sv hsv (by intro x; simp [hno x])

/-- C9: when the Service already exists under the cluster's name, a
reconcile pass leaves the service store untouched and issues no service
creation; the Service is only ever created from the builder when absent
and is never updated afterwards. -/
theorem service_created_at_most_once (now : Nat) (req : String) (s : ClusterState)
    (nc : NginxClusterV) (sv : ServiceV)
    (h : alookup s.clusters req = some nc)
    (hsv : alookup s.services nc.name = some sv) :
    (reconcile now req s).state.services = s.services ∧
    ∀ x, Mutation.svcCreate x ∉ (reconcile now req s).trace := by
  rcases hdel : nc.deletionTimestamp with _ | t
  · by_cases hfin : containsFinalizer nc = true
    · rw [reconcile_run now req s nc h hfin hdel]
      exact configStep_service_frame now nc _ [] s sv hsv (by intro x; simp)
    · have hfin' : containsFinalizer nc = false := by simpa using hfin
      rw [reconcile_run_addfin now req s nc h hfin' hdel]
      have hsv2 : alookup (applyClusterUpdate s (addFinalizer nc)).services (addFinalizer nc).name = some sv := by
        rw [applyClusterUpdate_services, addFinalizer_name]
        exact hsv
      obtain ⟨h1, h2⟩ := configStep_service_frame now (addFinalizer nc)
        (calculateConfigHash nc.spec.nginxConf)
        [Mutation.clusterUpdate (addFinalizer nc)] (applyClusterUpdate s (addFinalizer nc))
        sv hsv2 (by intro x; simp)
      refine ⟨?_, h2⟩
      rw [h1, applyClusterUpdate_services]
  · by_cases hfin : containsFinalizer nc = true
    · rw [reconcile_del_fin now req s nc t h hfin hdel]
      refine ⟨by simp, ?_⟩
      intro x
      simp
    · have hfin' : containsFinalizer nc = false := by simpa using hfin
      rw [reconcile_del_nofin now req s nc t h hfin' hdel]
      refine ⟨by simp, ?_⟩
      intro x
      simp

/-- Witness for C9 at the converged web store. -/
theorem service_created_at_most_once_witness :
    (reconcile 3 "web" convergedState).state.services = convergedState.services ∧
    ∀ x, Mutation.svcCreate x ∉ (reconcile 3 "web" convergedState).trace :=
  service_created_at_most_once 3 "web" convergedState
    { webCluster with status := { replicas := 2, readyReplicas := 2, configHash := "e3b0c44298fc1c14", lastUpdateTime := some 0 } }
    webService (by decide) (by decide)

/-! ### Claim C10 -/

theorem deploymentStep_no_panic (now : Nat) (nc : NginxClusterV) (F : String)
    (tr : List Mutation) (s : ClusterState)
    (hdep : ∀ d, alookup s.deployments nc.name = some d →
        d.replicas.isSome = true ∧ d.templateAnnotations.isSome = true) :
    (deploymentStep now nc F tr s).outcome ≠ Outcome.panicked := by
  rcases hd : alookup s.deployments nc.name with _ | d0
  · rw [deploymentStep_absent now nc F tr s hd]
    simp
  · rcases hr : d0.replicas with _ | n
    · exact absurd ((hdep d0 hd).1) (by rw [hr]; simp)
    · by_cases hn : n = nc.spec.replicas
      · subst hn
        by_cases ht : mread d0.templateAnnotations "config-hash" = F
        · rw [deploymentStep_template_same now nc F tr s d0 hd hr ht]
          simp
        · rcases hta : d0.templateAnnotations with _ | ta
          · exact absurd ((hdep d0 hd).2) (by rw [hta]; simp)
          · rw [deploymentStep_template_diff now nc F tr s d0 _ ta hd hr ht hta rfl]
            simp
      · rw [deploymentStep_scale now nc F tr s d0 n hd hr hn]
        simp

theorem configStep_no_panic (now : Nat) (nc : NginxClusterV) (F : String)
    (tr : List Mutation) (s : ClusterState)
    (hcm : ∀ cm, alookup s.configMaps (configMapKey nc.name) = some cm →
        mread cm.annotations "config-hash" ≠ F →
        cm.data.isSome = true ∧ cm.annotations.isSome = true)
    (hdep : ∀ d, alookup s.deployments nc.name = some d →
        d.replicas.isSome = true ∧ d.templateAnnotations.isSome = true) :
    (configStep now nc F tr s).outcome ≠ Outcome.panicked := by
  rcases hc : alookup s.configMaps (configMapKey nc.name) with _ | cm0
  · rw [configStep_absent now nc F tr s hc]
    exact deploymentStep_no_panic now nc F _ _ hdep
  · by_cases hm : mread cm0.annotations "config-hash" = F
    · rw [configStep_match now nc F tr s cm0 hc hm]
      exact deploymentStep_no_panic now nc F tr s hdep
    · rcases hdt : cm0.data with _ | dm
      · exact absurd ((hcm cm0 hc hm).1) (by rw [hdt]; simp)
      · rcases ha : cm0.annotations with _ | am
        · exact absurd ((hcm cm0 hc hm).2) (by rw [ha]; simp)
        · rw [configStep_update now nc F tr s cm0 _ dm am hc hm hdt ha rfl]
          exact deploymentStep_no_panic now nc F _ _ hdep

/-- C10: when every child object the pass fetches is well-formed
(non-nil replica pointer and pod-template annotation map on the
Deployment; non-nil Data and Annotations maps on the ConfigMap whenever
its fingerprint annotation mismatches), the pass cannot reach the Go
nil-dereference panics: it always returns an ordinary result. -/
theorem reconcile_no_panic (now : Nat) (req : String) (s : ClusterState)
    (hwf : FetchedChildrenWellFormed req s = true) :
    (reconcile now req s).outcome ≠ Outcome.panicked := by
  rcases h : alookup s.clusters req with _ | nc0
  · rw [reconcile_notfound now req s h]
    simp
  · unfold FetchedChildrenWellFormed at hwf
    rw [h] at hwf
    simp only [Bool.and_eq_true] at hwf
    obtain ⟨hwf1, hwf2⟩ := hwf
    have hcm : ∀ cm, alookup s.configMaps (configMapKey nc0.name) = some cm →
        mread cm.annotations "config-hash" ≠ calculateConfigHash nc0.spec.nginxConf →
        cm.data.isSome = true ∧ cm.annotations.isSome = true := by
      intro cm hc hm
      rw [hc] at hwf1
      simpa only [if_neg hm, Bool.and_eq_true] using hwf1
    have hdep : ∀ d, alookup s.deployments nc0.name = some d →
        d.replicas.isSome = true ∧ d.templateAnnotations.isSome = true := by
      intro d hd
      rw [hd] at hwf2
      simpa only [Bool.and_eq_true] using hwf2
    rcases hdel : nc0.deletionTimestamp with _ | t
    · by_cases hfin : containsFinalizer nc0 = true
      · rw [reconcile_run now req s nc0 h hfin hdel]
        exact configStep_no_panic now nc0 _ [] s hcm hdep
      · have hfin' : containsFinalizer nc0 = false := by simpa using hfin
        rw [reconcile_run_addfin now req s nc0 h hfin' hdel]
        apply configStep_no_panic
        · intro cm hc hm
          rw [applyClusterUpdate_configMaps, addFinalizer_name] at hc
          exact hcm cm hc hm
        · intro d hd
          rw [applyClusterUpdate_deployments, addFinalizer_name] at hd
          exact hdep d hd
    · by_cases hfin : containsFinalizer nc0 = true
      · rw [reconcile_del_fin now req s nc0 t h hfin hdel]
        simp
      · have hfin' : containsFinalizer nc0 = false := by simpa using hfin
        rw [reconcile_del_nofin now req s nc0 t h hfin' hdel]
        simp

/-- Witness for C10 at the converged web store. -/
theorem reconcile_no_panic_witness :
    (reconcile 4 "web" convergedState).outcome ≠ Outcome.panicked :=
  reconcile_no_panic 4 "web" convergedState (by decide)

/-! ### Claim C1 -/

theorem serviceAndStatusStep_status_mem (now : Nat) (nc : NginxClusterV) (F : String)
    (dep : DeploymentV) (tr : List Mutation) (s : ClusterState) :
    Mutation.statusUpdate (pubStatus dep F now) ∈ (serviceAndStatusStep now nc F dep tr s).trace := by
  rcases h : alookup s.services nc.name with _ | sv
  · rw [serviceAndStatusStep_absent now nc F dep tr s h]
    simp
  · rw [serviceAndStatusStep_present now nc F dep tr s sv h]
    simp

set_option maxHeartbeats 1000000 in
/-- C1: when the stored ConfigMap and the pod template both carry
fingerprint F1 while the spec text hashes to F2 with F1 different from F2,
and the Deployment already has the spec's replica count, one pass persists
both the ConfigMap rewritten to the new payload and fingerprint and the
Deployment whose pod template carries the new fingerprint together with a
fresh restartedAt marker. -/
theorem config_change_one_pass (now : Nat) (s : ClusterState)
    (nc : NginxClusterV) (cm0 : ConfigMapV) (d0 : DeploymentV)
    (dm am ta : StrMap) (F1 F2 : String) (cm1 : ConfigMapV) (d1 : DeploymentV)
    (hF2 : F2 = calculateConfigHash nc.spec.nginxConf)
    (hcl : alookup s.clusters nc.name = some nc)
    (hfin : containsFinalizer nc = true)
    (hdel : nc.deletionTimestamp = none)
    (hcm : alookup s.configMaps (configMapKey nc.name) = some cm0)
    (hdt : cm0.data = some dm) (han : cm0.annotations = some am)
    (hf1 : mread cm0.annotations "config-hash" = F1)
    (ht1 : mread d0.templateAnnotations "config-hash" = F1)
    (hne : F1 ≠ F2)
    (hdep : alookup s.deployments nc.name = some d0)
    (hrep : d0.replicas = some nc.spec.replicas)
    (hta : d0.templateAnnotations = some ta)
    (hcm1 : cm1 = { cm0 with data := some (mset dm "nginx.conf" nc.spec.nginxConf), annotations := some (mset am "config-hash" F2) })
    (hd1 : d1 = { d0 with templateAnnotations := some (mset (mset ta "config-hash" F2) "restartedAt" (formatRFC3339 now)) }) :
    (reconcile now nc.name s).outcome = Outcome.ok ⟨false⟩ ∧
    Mutation.cmUpdate cm1 ∈ (reconcile now nc.name s).trace ∧
    Mutation.depUpdate d1 ∈ (reconcile now nc.name s).trace ∧
    mread cm1.data "nginx.conf" = nc.spec.nginxConf ∧
    mread cm1.annotations "config-hash" = F2 ∧
    mread d1.templateAnnotations "config-hash" = F2 ∧
    mread d1.templateAnnotations "restartedAt" = formatRFC3339 now := by
  rw [reconcile_run now nc.name s nc hcl hfin hdel]
  rw [← hF2]
  have hne1 : mread cm0.annotations "config-hash" ≠ F2 := by
    rw [hf1]
    exact hne
  rw [configStep_update now nc F2 [] s cm0 cm1 dm am hcm hne1 hdt han hcm1]
  have hdep2 : alookup ({ s with configMaps := aset s.configMaps cm0.name cm1 } : ClusterState).deployments nc.name = some d0 := hdep
  have ht2 : mread d0.templateAnnotations "config-hash" ≠ F2 := by
    rw [ht1]
    exact hne
  rw [deploymentStep_template_diff now nc F2 ([] ++ [Mutation.cmUpdate cm1]) _ d0 d1 ta hdep2 hrep ht2 hta hd1]
  obtain ⟨rest, htr⟩ := serviceAndStatusStep_trace_append now nc F2 d1
    (([] ++ [Mutation.cmUpdate cm1]) ++ [Mutation.depUpdate d1]) _
  refine ⟨by simp, ?_, ?_, ?_, ?_, ?_, ?_⟩
  · rw [htr]
    simp
  · rw [htr]
    simp
  · rw [hcm1]
    simp [mread]
  · rw [hcm1]
    simp [mread]
  · rw [hd1]
    simp only [mread]
    rw [mget_mset_ne _ "restartedAt" "config-hash" _ (by decide), mget_mset_self]
  · rw [hd1]
    simp only [mread]
    rw [mget_mset_self]

/-- Witness for C1 at the converged web store whose spec text changed to
x. -/
theorem config_change_one_pass_witness :
    (reconcile 9 "web" confChangedState).outcome = Outcome.ok ⟨false⟩ ∧
    Mutation.cmUpdate confChangedCM ∈ (reconcile 9 "web" confChangedState).trace ∧
    Mutation.depUpdate (confChangedDep 9) ∈ (reconcile 9 "web" confChangedState).trace ∧
    mread confChangedCM.data "nginx.conf" = confChangedCluster.spec.nginxConf ∧
    mread confChangedCM.annotations "config-hash" = calculateConfigHash "x" ∧
    mread (confChangedDep 9).templateAnnotations "config-hash" = calculateConfigHash "x" ∧
    mread (confChangedDep 9).templateAnnotations "restartedAt" = formatRFC3339 9 :=
  config_change_one_pass 9 confChangedState confChangedCluster webConfigMap webDeployment
    [("nginx.conf", getDefaultNginxConf)] [("config-hash", "e3b0c44298fc1c14")]
    [("config-hash", "e3b0c44298fc1c14")] "e3b0c44298fc1c14" (calculateConfigHash "x")
    confChangedCM (confChangedDep 9)
    rfl (by decide) (by decide) (by decide) (by decide) rfl rfl rfl rfl (by decide)
    (by decide) rfl rfl rfl rfl

/-! ### Claim C4 -/

/-- Digest of the empty configuration text. -/
theorem hash_empty_val : calculateConfigHash "" = "e3b0c44298fc1c14" := by decide

set_option maxRecDepth 65536 in
/-- Digest of the default configuration text. -/
theorem hash_default_val : calculateConfigHash getDefaultNginxConf = "18272da1eeeb3209" := by decide

/-- C4 counterexample: with an empty configText the pass publishes the
digest of the empty string, not the digest of the default configuration
text, so the fingerprint is not computed with the default substituted. -/
theorem fingerprint_ignores_default_cex :
    webCluster.spec.nginxConf = "" ∧
    Mutation.statusUpdate { replicas := 2, readyReplicas := 2, configHash := "e3b0c44298fc1c14", lastUpdateTime := some 5 } ∈ (reconcile 5 "web" emptyConfState).trace ∧
    calculateConfigHash "" = "e3b0c44298fc1c14" ∧
    calculateConfigHash getDefaultNginxConf = "18272da1eeeb3209" ∧
    ("e3b0c44298fc1c14" : String) ≠ "18272da1eeeb3209" :=
  ⟨by decide, by decide, hash_empty_val, hash_default_val, by decide⟩

set_option maxHeartbeats 1000000 in
/-- C4 amended: the fingerprint used to tag the ConfigMap, the pod
template and the published status is computed from the raw configText with
no default substitution: for an empty configText all three tags written by
a converging pass equal the digest of the empty string, which differs from
the digest of the default configuration text. -/
theorem fingerprint_from_raw_text (now : Nat) (s : ClusterState)
    (nc : NginxClusterV) (cm0 : ConfigMapV) (d0 : DeploymentV)
    (dm am ta : StrMap) (F1 F2 : String) (cm1 : ConfigMapV) (d1 : DeploymentV)
    (hconf : nc.spec.nginxConf = "")
    (hF2 : F2 = calculateConfigHash "")
    (hcl : alookup s.clusters nc.name = some nc)
    (hfin : containsFinalizer nc = true)
    (hdel : nc.deletionTimestamp = none)
    (hcm : alookup s.configMaps (configMapKey nc.name) = some cm0)
    (hdt : cm0.data = some dm) (han : cm0.annotations = some am)
    (hf1 : mread cm0.annotations "config-hash" = F1)
    (ht1 : mread d0.templateAnnotations "config-hash" = F1)
    (hne : F1 ≠ F2)
    (hdep : alookup s.deployments nc.name = some d0)
    (hrep : d0.replicas = some nc.spec.replicas)
    (hta : d0.templateAnnotations = some ta)
    (hcm1 : cm1 = { cm0 with data := some (mset dm "nginx.conf" nc.spec.nginxConf), annotations := some (mset am "config-hash" F2) })
    (hd1 : d1 = { d0 with templateAnnotations := some (mset (mset ta "config-hash" F2) "restartedAt" (formatRFC3339 now)) }) :
    Mutation.cmUpdate cm1 ∈ (reconcile now nc.name s).trace ∧
    Mutation.depUpdate d1 ∈ (reconcile now nc.name s).trace ∧
    Mutation.statusUpdate (pubStatus d1 F2 now) ∈ (reconcile now nc.name s).trace ∧
    mread cm1.annotations "config-hash" = F2 ∧
    mread d1.templateAnnotations "config-hash" = F2 ∧
    (pubStatus d1 F2 now).configHash = F2 ∧
    F2 ≠ calculateConfigHash getDefaultNginxConf := by
  rw [reconcile_run now nc.name s nc hcl hfin hdel]
  rw [hconf, ← hF2]
  have hne1 : mread cm0.annotations "config-hash" ≠ F2 := by
    rw [hf1]
    exact hne
  rw [configStep_update now nc F2 [] s cm0 cm1 dm am hcm hne1 hdt han hcm1]
  have hdep2 : alookup ({ s with configMaps := aset s.configMaps cm0.name cm1 } : ClusterState).deployments nc.name = some d0 := hdep
  have ht2 : mread d0.templateAnnotations "config-hash" ≠ F2 := by
    rw [ht1]
    exact hne
  rw [deploymentStep_template_diff now nc F2 ([] ++ [Mutation.cmUpdate cm1]) _ d0 d1 ta hdep2 hrep ht2 hta hd1]
  obtain ⟨rest, htr⟩ := serviceAndStatusStep_trace_append now nc F2 d1
    (([] ++ [Mutation.cmUpdate cm1]) ++ [Mutation.depUpdate d1]) _
  refine ⟨?_, ?_, ?_, ?_, ?_, rfl, ?_⟩
  · rw [htr]
    simp
  · rw [htr]
    simp
  · exact serviceAndStatusStep_status_mem now nc F2 d1 _ _
  · rw [hcm1]
    simp [mread]
  · rw [hd1]
    simp only [mread]
    rw [mget_mset_ne _ "restartedAt" "config-hash" _ (by decide), mget_mset_self]
  · rw [hF2, hash_empty_val, hash_default_val]
    decide

/-- Witness for C4 amended at the store still tagged with the digest of
text x while the spec's configText is empty. -/
theorem fingerprint_from_raw_text_witness :
    Mutation.cmUpdate staleCM1 ∈ (reconcile 5 "web" staleTagState).trace ∧
    Mutation.depUpdate (staleDep1 5) ∈ (reconcile 5 "web" staleTagState).trace ∧
    Mutation.statusUpdate (pubStatus (staleDep1 5) (calculateConfigHash "") 5) ∈ (reconcile 5 "web" staleTagState).trace ∧
    mread staleCM1.annotations "config-hash" = calculateConfigHash "" ∧
    mread (staleDep1 5).templateAnnotations "config-hash" = calculateConfigHash "" ∧
    (pubStatus (staleDep1 5) (calculateConfigHash "") 5).configHash = calculateConfigHash "" ∧
    calculateConfigHash "" ≠ calculateConfigHash getDefaultNginxConf :=
  fingerprint_from_raw_text 5 staleTagState convergedCluster emptyConfChangedCM staleTagDep
    [("nginx.conf", "x")] [("config-hash", calculateConfigHash "x")]
    [("config-hash", calculateConfigHash "x")] (calculateConfigHash "x") (calculateConfigHash "")
    staleCM1 (staleDep1 5)
    rfl rfl (by decide) (by decide) (by decide) (by decide) rfl rfl rfl rfl (by decide)
    (by decide) rfl rfl rfl rfl

/-! ### Claim C5 -/

/-- C5 counterexample: a pass overwriting the config object while the
spec's configText is empty stores the raw empty payload, not the built-in
baseline configuration: the update path performs no default
substitution. -/
theorem update_path_no_default_substitution :
    webCluster.spec.nginxConf = "" ∧
    Mutation.cmUpdate { emptyConfChangedCM with data := some [("nginx.conf", "")], annotations := some [("config-hash", "e3b0c44298fc1c14")] } ∈ (reconcile 5 "web" emptyConfState).trace ∧
    alookup (reconcile 5 "web" emptyConfState).state.configMaps "web-nginx-config" = some { emptyConfChangedCM with data := some [("nginx.conf", "")], annotations := some [("config-hash", "e3b0c44298fc1c14")] } ∧
    mget [("nginx.conf", "")] "nginx.conf" ≠ getDefaultNginxConf := by decide

/-- C5 amended: on the create path an empty configText yields the built-in
baseline configuration in the config object and an empty image yields the
fixed default image in the workload object; on the in-place update path
the controller writes the raw configText, without default substitution. -/
theorem default_substitution (m : NginxClusterV) (F : String) :
    (m.spec.nginxConf = "" →
      (configMapForNginxCluster m F).data = some [("nginx.conf", getDefaultNginxConf)]) ∧
    (m.spec.image = "" → (deploymentForNginxCluster m F).image = "nginx:latest") ∧
    (∀ now s cm0 dm am, alookup s.clusters m.name = some m →
      containsFinalizer m = true → m.deletionTimestamp = none →
      alookup s.configMaps (configMapKey m.name) = some cm0 →
      mread cm0.annotations "config-hash" ≠ calculateConfigHash m.spec.nginxConf →
      cm0.data = some dm → cm0.annotations = some am →
      Mutation.cmUpdate { cm0 with data := some (mset dm "nginx.conf" m.spec.nginxConf), annotations := some (mset am "config-hash" (calculateConfigHash m.spec.nginxConf)) } ∈ (reconcile now m.name s).trace) := by
  refine ⟨?_, ?_, ?_⟩
  · intro h
    simp [configMapForNginxCluster, h]
  · intro h
    simp [deploymentForNginxCluster, h]
  · intro now s cm0 dm am hcl hfin hdel hcm hne hdt han
    rw [reconcile_run now m.name s m hcl hfin hdel]
    have hne1 : mread cm0.annotations "config-hash" ≠ calculateConfigHash m.spec.nginxConf := hne
    rw [configStep_update now m (calculateConfigHash m.spec.nginxConf) [] s cm0 _ dm am hcm hne1 hdt han rfl]
    obtain ⟨rest, htr⟩ := deploymentStep_trace_append now m (calculateConfigHash m.spec.nginxConf)
      ([] ++ [Mutation.cmUpdate { cm0 with data := some (mset dm "nginx.conf" m.spec.nginxConf), annotations := some (mset am "config-hash" (calculateConfigHash m.spec.nginxConf)) }]) _
    rw [htr]
    simp

/-! ### Claim C3 -/

theorem sas_depUpdate_mem (now : Nat) (nc : NginxClusterV) (F : String)
    (dep : DeploymentV) (tr : List Mutation) (s : ClusterState) (d' : DeploymentV)
    (h : Mutation.depUpdate d' ∈ (serviceAndStatusStep now nc F dep tr s).trace) :
    Mutation.depUpdate d' ∈ tr := by
  rcases hs : alookup s.services nc.name with _ | sv
  · rw [serviceAndStatusStep_absent now nc F dep tr s hs] at h
    simpa using h
  · rw [serviceAndStatusStep_present now nc F dep tr s sv hs] at h
    simpa using h

theorem deploymentStep_depUpdate_shape (now : Nat) (nc : NginxClusterV) (F : String)
    (tr : List Mutation) (s : ClusterState) (d' : DeploymentV)
    (h : Mutation.depUpdate d' ∈ (deploymentStep now nc F tr s).trace) :
    Mutation.depUpdate d' ∈ tr ∨
    ∃ d0, alookup s.deployments nc.name = some d0 ∧
      (d' = { d0 with replicas := some nc.spec.replicas } ∨ d'.replicas = d0.replicas) := by
  rcases hd : alookup s.deployments nc.name with _ | d0
  · rw [deploymentStep_absent now nc F tr s hd] at h
    left
    simpa using h
  · rcases hr : d0.replicas with _ | n
    · rw [deploymentStep_nil_replicas now nc F tr s d0 hd hr] at h
      exact Or.inl h
    · by_cases hn : n = nc.spec.replicas
      · subst hn
        by_cases ht : mread d0.templateAnnotations "config-hash" = F
        · rw [deploymentStep_template_same now nc F tr s d0 hd hr ht] at h
          exact Or.inl (sas_depUpdate_mem _ _ _ _ _ _ _ h)
        · rcases hta : d0.templateAnnotations with _ | ta
          · rw [deploymentStep_template_panic now nc F tr s d0 hd hr ht hta] at h
            exact Or.inl h
          · rw [deploymentStep_template_diff now nc F tr s d0 _ ta hd hr ht hta rfl] at h
            have h2 := sas_depUpdate_mem _ _ _ _ _ _ _ h
            rcases List.mem_append.mp h2 with h3 | h3
            · exact Or.inl h3
            · right
              refine ⟨d0, rfl, Or.inr ?_⟩
              simp only [List.mem_singleton, Mutation.depUpdate.injEq] at h3
              rw [h3]
      · rw [deploymentStep_scale now nc F tr s d0 n hd hr hn] at h
        rcases List.mem_append.mp h with h3 | h3
        · exact Or.inl h3
        · right
          refine ⟨d0, rfl, Or.inl ?_⟩
          simpa using h3

theorem configStep_depUpdate_shape (now : Nat) (nc : NginxClusterV) (F : String)
    (tr : List Mutation) (s : ClusterState) (d' : DeploymentV)
    (h : Mutation.depUpdate d' ∈ (configStep now nc F tr s).trace) :
    Mutation.depUpdate d' ∈ tr ∨
    ∃ d0, alookup s.deployments nc.name = some d0 ∧
      (d' = { d0 with replicas := some nc.spec.replicas } ∨ d'.replicas = d0.replicas) := by
  rcases hc : alookup s.configMaps (configMapKey nc.name) with _ | cm0
  · rw [configStep_absent now nc F tr s hc] at h
    rcases deploymentStep_depUpdate_shape _ _ _ _ _ _ h with h2 | h2
    · left
      rcases List.mem_append.mp h2 with h3 | h3
      · exact h3
      · simp at h3
    · exact Or.inr h2
  · by_cases hm : mread cm0.annotations "config-hash" = F
    · rw [configStep_match now nc F tr s cm0 hc hm] at h
      exact deploymentStep_depUpdate_shape _ _ _ _ _ _ h
    · rcases hdt : cm0.data with _ | dm
      · rw [configStep_panic_data now nc F tr s cm0 hc hm hdt] at h
        exact Or.inl h
      · rcases ha : cm0.annotations with _ | am
        · rw [configStep_panic_ann now nc F tr s cm0 dm hc hm hdt ha] at h
          exact Or.inl h
        · rw [configStep_update now nc F tr s cm0 _ dm am hc hm hdt ha rfl] at h
          rcases deploymentStep_depUpdate_shape _ _ _ _ _ _ h with h2 | h2
          · left
            rcases List.mem_append.mp h2 with h3 | h3
            · exact h3
            · simp at h3
          · exact Or.inr h2

theorem reconcile_depUpdate_shape (now : Nat) (req : String) (s : ClusterState) (d' : DeploymentV)
    (h : Mutation.depUpdate d' ∈ (reconcile now req s).trace) :
    ∃ nc d0, alookup s.clusters req = some nc ∧ alookup s.deployments nc.name = some d0 ∧
      (d' = { d0 with replicas := some nc.spec.replicas } ∨ d'.replicas = d0.replicas) := by
  rcases hcl : alookup s.clusters req with _ | nc0
  · rw [reconcile_notfound now req s hcl] at h
    simp at h
  · rcases hdel : nc0.deletionTimestamp with _ | t
    · by_cases hfin : containsFinalizer nc0 = true
      · rw [reconcile_run now req s nc0 hcl hfin hdel] at h
        rcases configStep_depUpdate_shape _ _ _ _ _ _ h with h2 | h2
        · simp at h2
        · exact ⟨nc0, h2.choose, rfl, h2.choose_spec.1, h2.choose_spec.2⟩
      · have hfin' : containsFinalizer nc0 = false := by simpa using hfin
        rw [reconcile_run_addfin now req s nc0 hcl hfin' hdel] at h
        rcases configStep_depUpdate_shape _ _ _ _ _ _ h with h2 | h2
        · simp at h2
        · obtain ⟨d0, hd0, hsh⟩ := h2
          rw [applyClusterUpdate_deployments, addFinalizer_name] at hd0
          exact ⟨nc0, d0, rfl, hd0, hsh⟩
    · by_cases hfin : containsFinalizer nc0 = true
      · rw [reconcile_del_fin now req s nc0 t hcl hfin hdel] at h
        simp at h
      · have hfin' : containsFinalizer nc0 = false := by simpa using hfin
        rw [reconcile_del_nofin now req s nc0 t hcl hfin' hdel] at h
        simp at h

theorem configStep_scale_post (now : Nat) (nc : NginxClusterV) (F : String)
    (tr : List Mutation) (s : ClusterState) (d0 : DeploymentV) (n : Int) (d1 : DeploymentV)
    (hcmwf : ∀ cm, alookup s.configMaps (configMapKey nc.name) = some cm →
        mread cm.annotations "config-hash" ≠ F →
        cm.data.isSome = true ∧ cm.annotations.isSome = true)
    (hdep : alookup s.deployments nc.name = some d0)
    (hrep : d0.replicas = some n)
    (hne : n ≠ nc.spec.replicas)
    (hd1 : d1 = { d0 with replicas := some nc.spec.replicas }) :
    ∃ trc cms,
      configStep now nc F tr s =
        ⟨Outcome.ok ⟨true⟩, (tr ++ trc) ++ [Mutation.depUpdate d1],
         { s with configMaps := cms, deployments := aset s.deployments d0.name d1 }⟩ ∧
      (∀ x, Mutation.svcCreate x ∉ trc) ∧ (∀ x, Mutation.statusUpdate x ∉ trc) := by
  subst hd1
  rcases hc : alookup s.configMaps (configMapKey nc.name) with _ | cm0
  · rw [configStep_absent now nc F tr s hc]
    rw [deploymentStep_scale now nc F (tr ++ [Mutation.cmCreate (configMapForNginxCluster nc F)])
      { s with configMaps := aset s.configMaps (configMapKey nc.name) (configMapForNginxCluster nc F) }
      d0 n hdep hrep hne]
    refine ⟨[Mutation.cmCreate (configMapForNginxCluster nc F)],
            aset s.configMaps (configMapKey nc.name) (configMapForNginxCluster nc F), rfl, ?_, ?_⟩
    · intro x
      simp
    · intro x
      simp
  · by_cases hm : mread cm0.annotations "config-hash" = F
    · rw [configStep_match now nc F tr s cm0 hc hm]
      rw [deploymentStep_scale now nc F tr s d0 n hdep hrep hne]
      refine ⟨[], s.configMaps, ?_, ?_, ?_⟩
      · simp
      · intro x
        simp
      · intro x
        simp
    · rcases hdt : cm0.data with _ | dm
      · exact absurd ((hcmwf cm0 hc hm).1) (by rw [hdt]; simp)
      · rcases ha : cm0.annotations with _ | am
        · exact absurd ((hcmwf cm0 hc hm).2) (by rw [ha]; simp)
        · rw [configStep_update now nc F tr s cm0 _ dm am hc hm hdt ha rfl]
          rw [deploymentStep_scale now nc F
            (tr ++ [Mutation.cmUpdate { cm0 with data := some (mset dm "nginx.conf" nc.spec.nginxConf), annotations := some (mset am "config-hash" F) }])
            { s with configMaps := aset s.configMaps cm0.name { cm0 with data := some (mset dm "nginx.conf" nc.spec.nginxConf), annotations := some (mset am "config-hash" F) } }
            d0 n hdep hrep hne]
          refine ⟨[Mutation.cmUpdate { cm0 with data := some (mset dm "nginx.conf" nc.spec.nginxConf), annotations := some (mset am "config-hash" F) }],
                  aset s.configMaps cm0.name { cm0 with data := some (mset dm "nginx.conf" nc.spec.nginxConf), annotations := some (mset am "config-hash" F) }, rfl, ?_, ?_⟩
          · intro x
            simp
          · intro x
            simp

set_option maxHeartbeats 1000000 in
/-- C3: on an existing Deployment with N replicas while the spec requests
M different from N, one pass updates the replica count to M and returns a
requeue result without running the later convergence steps (no pod
template write reaches the trace conclusion, no Service create, no status
publication); a second pass with the spec unchanged issues no deployment
update that changes the replica count away from M. -/
theorem replica_change_two_pass (now now2 : Nat) (s : ClusterState)
    (nc : NginxClusterV) (d0 : DeploymentV) (n : Int) (d1 : DeploymentV)
    (hcl : alookup s.clusters nc.name = some nc)
    (hfin : containsFinalizer nc = true)
    (hdel : nc.deletionTimestamp = none)
    (hcmwf : ∀ cm, alookup s.configMaps (configMapKey nc.name) = some cm →
        mread cm.annotations "config-hash" ≠ calculateConfigHash nc.spec.nginxConf →
        cm.data.isSome = true ∧ cm.annotations.isSome = true)
    (hdep : alookup s.deployments nc.name = some d0)
    (hd0name : d0.name = nc.name)
    (hrep : d0.replicas = some n)
    (hne : n ≠ nc.spec.replicas)
    (hd1 : d1 = { d0 with replicas := some nc.spec.replicas }) :
    (reconcile now nc.name s).outcome = Outcome.ok ⟨true⟩ ∧
    Mutation.depUpdate d1 ∈ (reconcile now nc.name s).trace ∧
    (∀ x, Mutation.svcCreate x ∉ (reconcile now nc.name s).trace) ∧
    (∀ x, Mutation.statusUpdate x ∉ (reconcile now nc.name s).trace) ∧
    alookup (reconcile now nc.name s).state.deployments nc.name = some d1 ∧
    (∀ d', Mutation.depUpdate d' ∈ (reconcile now2 nc.name (reconcile now nc.name s).state).trace →
      d'.replicas = some nc.spec.replicas) := by
  rw [reconcile_run now nc.name s nc hcl hfin hdel]
  obtain ⟨trc, cms, heq, hnosvc, hnostat⟩ := configStep_scale_post now nc
    (calculateConfigHash nc.spec.nginxConf) [] s d0 n d1 hcmwf hdep hrep hne hd1
  rw [heq]
  refine ⟨rfl, by simp, ?_, ?_, ?_, ?_⟩
  · intro x
    simp [hnosvc x]
  · intro x
    simp [hnostat x]
  · rw [hd0name]
    simp
  · intro d' hmem
    obtain ⟨nc', d0', hcl', hdep', hshape⟩ := reconcile_depUpdate_shape now2 nc.name _ d' hmem
    have h6 : alookup s.clusters nc.name = some nc' := hcl'
    rw [hcl] at h6
    injection h6 with h6
    subst h6
    have h7 : alookup (aset s.deployments d0.name d1) nc.name = some d0' := hdep'
    rw [hd0name, alookup_aset_self] at h7
    injection h7 with h7
    subst h7
    rcases hshape with h8 | h8
    · rw [h8]
    · rw [h8, hd1]

/-- Witness for C3 at the converged web store whose spec was scaled from
two to five replicas; the second pass runs one instant later. -/
theorem replica_change_two_pass_witness :
    (reconcile 3 "web" scaledState).outcome = Outcome.ok ⟨true⟩ ∧
    Mutation.depUpdate { webDeployment with replicas := some (5 : Int) } ∈ (reconcile 3 "web" scaledState).trace ∧
    (∀ x, Mutation.svcCreate x ∉ (reconcile 3 "web" scaledState).trace) ∧
    (∀ x, Mutation.statusUpdate x ∉ (reconcile 3 "web" scaledState).trace) ∧
    alookup (reconcile 3 "web" scaledState).state.deployments "web" = some { webDeployment with replicas := some (5 : Int) } ∧
    (∀ d', Mutation.depUpdate d' ∈ (reconcile 4 "web" (reconcile 3 "web" scaledState).state).trace →
      d'.replicas = some (5 : Int)) :=
  replica_change_two_pass 3 4 scaledState scaledCluster webDeployment 2
    { webDeployment with replicas := some (5 : Int) }
    (by decide) (by decide) (by decide)
    (by
      intro cm h1 h2
      have h1' : alookup [("web-nginx-config", webConfigMap)] (configMapKey scaledCluster.name) = some cm := h1
      obtain ⟨-, rfl⟩ := (alookup_singleton _ _ _ _).mp h1'
      exact absurd (by decide : mread webConfigMap.annotations "config-hash" = calculateConfigHash scaledCluster.spec.nginxConf) h2)
    (by decide) rfl rfl (by decide) rfl

/-- Witness for C5 amended: the builders on the web cluster and the update
path on the store whose ConfigMap still carries text x. -/
theorem default_substitution_witness :
    (configMapForNginxCluster webCluster "h").data = some [("nginx.conf", getDefaultNginxConf)] ∧
    (deploymentForNginxCluster webCluster "h").image = "nginx:latest" ∧
    Mutation.cmUpdate { emptyConfChangedCM with data := some (mset [("nginx.conf", "x")] "nginx.conf" convergedCluster.spec.nginxConf), annotations := some (mset [("config-hash", calculateConfigHash "x")] "config-hash" (calculateConfigHash convergedCluster.spec.nginxConf)) } ∈ (reconcile 5 "web" emptyConfState).trace :=
  ⟨(default_substitution webCluster "h").1 rfl,
   (default_substitution webCluster "h").2.1 rfl,
   (default_substitution convergedCluster "h").2.2 5 emptyConfState emptyConfChangedCM
     [("nginx.conf", "x")] [("config-hash", calculateConfigHash "x")]
     (by decide) (by decide) (by decide) (by decide) (by decide) rfl rfl⟩

/-! ### Claim C2 -/

theorem applyStatusUpdate_self (s : ClusterState) (nc nc' : NginxClusterV)
    (hself : alookup s.clusters nc'.name = some nc) :
    alookup (applyStatusUpdate s nc').clusters nc'.name = some { nc with status := nc'.status } := by
  unfold applyStatusUpdate
  rw [hself]
  simp

theorem sas_post (now : Nat) (nc : NginxClusterV) (F : String)
    (dep : DeploymentV) (tr : List Mutation) (s : ClusterState)
    (hself : alookup s.clusters nc.name = some nc) :
    (serviceAndStatusStep now nc F dep tr s).state.configMaps = s.configMaps ∧
    (serviceAndStatusStep now nc F dep tr s).state.deployments = s.deployments ∧
    alookup (serviceAndStatusStep now nc F dep tr s).state.clusters nc.name =
      some { nc with status := pubStatus dep F now } ∧
    (∃ sv, alookup (serviceAndStatusStep now nc F dep tr s).state.services nc.name = some sv) := by
  rcases hs : alookup s.services nc.name with _ | sv
  · rw [serviceAndStatusStep_absent now nc F dep tr s hs]
    refine ⟨by simp, by simp, ?_, ?_⟩
    · exact applyStatusUpdate_self _ nc { nc with status := pubStatus dep F now } hself
    · refine ⟨serviceForNginxCluster nc, ?_⟩
      rw [applyStatusUpdate_services]
      simp
  · rw [serviceAndStatusStep_present now nc F dep tr s sv hs]
    refine ⟨by simp, by simp, ?_, ?_⟩
    · exact applyStatusUpdate_self _ nc { nc with status := pubStatus dep F now } hself
    · refine ⟨sv, ?_⟩
      rw [applyStatusUpdate_services]
      exact hs

theorem deploymentStep_ok_false_post (now : Nat) (nc : NginxClusterV) (F : String)
    (tr : List Mutation) (s : ClusterState)
    (hself : alookup s.clusters nc.name = some nc)
    (hdn : ∀ k d, alookup s.deployments k = some d → d.name = k)
    (hok : (deploymentStep now nc F tr s).outcome = Outcome.ok ⟨false⟩) :
    (deploymentStep now nc F tr s).state.configMaps = s.configMaps ∧
    ∃ d sv,
      alookup (deploymentStep now nc F tr s).state.clusters nc.name =
        some { nc with status := pubStatus d F now } ∧
      alookup (deploymentStep now nc F tr s).state.deployments nc.name = some d ∧
      d.replicas = some nc.spec.replicas ∧
      mread d.templateAnnotations "config-hash" = F ∧
      alookup (deploymentStep now nc F tr s).state.services nc.name = some sv := by
  rcases hd : alookup s.deployments nc.name with _ | d0
  · rw [deploymentStep_absent now nc F tr s hd] at hok
    simp at hok
  · rcases hr : d0.replicas with _ | n
    · rw [deploymentStep_nil_replicas now nc F tr s d0 hd hr] at hok
      simp at hok
    · by_cases hn : n = nc.spec.replicas
      · subst hn
        by_cases ht : mread d0.templateAnnotations "config-hash" = F
        · rw [deploymentStep_template_same now nc F tr s d0 hd hr ht] at hok ⊢
          obtain ⟨hcm2, hdep2, hcl2, sv, hsv2⟩ := sas_post now nc F d0 tr s hself
          refine ⟨hcm2, d0, sv, hcl2, ?_, hr, ht, hsv2⟩
          rw [hdep2]
          exact hd
        · rcases hta : d0.templateAnnotations with _ | ta
          · rw [deploymentStep_template_panic now nc F tr s d0 hd hr ht hta] at hok
            simp at hok
          · rw [deploymentStep_template_diff now nc F tr s d0 _ ta hd hr ht hta rfl] at hok ⊢
            obtain ⟨hcm2, hdep2, hcl2, sv, hsv2⟩ := sas_post now nc F
              { d0 with templateAnnotations := some (mset (mset ta "config-hash" F) "restartedAt" (formatRFC3339 now)) }
              (tr ++ [Mutation.depUpdate { d0 with templateAnnotations := some (mset (mset ta "config-hash" F) "restartedAt" (formatRFC3339 now)) }])
              { s with deployments := aset s.deployments d0.name { d0 with templateAnnotations := some (mset (mset ta "config-hash" F) "restartedAt" (formatRFC3339 now)) } }
              hself
            refine ⟨by rw [hcm2], _, sv, hcl2, ?_, hr, ?_, hsv2⟩
            · rw [hdep2]
              rw [hdn nc.name d0 hd]
              simp
            · simp only [mread]
              rw [mget_mset_ne _ "restartedAt" "config-hash" _ (by decide), mget_mset_self]
      · rw [deploymentStep_scale now nc F tr s d0 n hd hr hn] at hok
        simp at hok

theorem configStep_ok_false_post (now : Nat) (nc : NginxClusterV) (F : String)
    (tr : List Mutation) (s : ClusterState)
    (hself : alookup s.clusters nc.name = some nc)
    (hcmn : ∀ k cm, alookup s.configMaps k = some cm → cm.name = k)
    (hdn : ∀ k d, alookup s.deployments k = some d → d.name = k)
    (hok : (configStep now nc F tr s).outcome = Outcome.ok ⟨false⟩) :
    ∃ cm d sv,
      alookup (configStep now nc F tr s).state.clusters nc.name =
        some { nc with status := pubStatus d F now } ∧
      alookup (configStep now nc F tr s).state.configMaps (configMapKey nc.name) = some cm ∧
      mread cm.annotations "config-hash" = F ∧
      alookup (configStep now nc F tr s).state.deployments nc.name = some d ∧
      d.replicas = some nc.spec.replicas ∧
      mread d.templateAnnotations "config-hash" = F ∧
      alookup (configStep now nc F tr s).state.services nc.name = some sv := by
  rcases hc : alookup s.configMaps (configMapKey nc.name) with _ | cm0
  · rw [configStep_absent now nc F tr s hc] at hok ⊢
    obtain ⟨hcm2, d, sv, hcl2, hd2, hdr2, hdh2, hsv2⟩ :=
      deploymentStep_ok_false_post now nc F
        (tr ++ [Mutation.cmCreate (configMapForNginxCluster nc F)])
        { s with configMaps := aset s.configMaps (configMapKey nc.name) (configMapForNginxCluster nc F) }
        hself hdn hok
    refine ⟨configMapForNginxCluster nc F, d, sv, hcl2, ?_, ?_, hd2, hdr2, hdh2, hsv2⟩
    · rw [hcm2]
      simp
    · simp [configMapForNginxCluster, mread, mget]
  · by_cases hm : mread cm0.annotations "config-hash" = F
    · rw [configStep_match now nc F tr s cm0 hc hm] at hok ⊢
      obtain ⟨hcm2, d, sv, hcl2, hd2, hdr2, hdh2, hsv2⟩ :=
        deploymentStep_ok_false_post now nc F tr s hself hdn hok
      refine ⟨cm0, d, sv, hcl2, ?_, hm, hd2, hdr2, hdh2, hsv2⟩
      rw [hcm2]
      exact hc
    · rcases hdt : cm0.data with _ | dm
      · rw [configStep_panic_data now nc F tr s cm0 hc hm hdt] at hok
        simp at hok
      · rcases ha : cm0.annotations with _ | am
        · rw [configStep_panic_ann now nc F tr s cm0 dm hc hm hdt ha] at hok
          simp at hok
        · rw [configStep_update now nc F tr s cm0 _ dm am hc hm hdt ha rfl] at hok ⊢
          obtain ⟨hcm2, d, sv, hcl2, hd2, hdr2, hdh2, hsv2⟩ :=
            deploymentStep_ok_false_post now nc F
              (tr ++ [Mutation.cmUpdate { cm0 with data := some (mset dm "nginx.conf" nc.spec.nginxConf), annotations := some (mset am "config-hash" F) }])
              { s with configMaps := aset s.configMaps cm0.name { cm0 with data := some (mset dm "nginx.conf" nc.spec.nginxConf), annotations := some (mset am "config-hash" F) } }
              hself hdn hok
          refine ⟨{ cm0 with data := some (mset dm "nginx.conf" nc.spec.nginxConf), annotations := some (mset am "config-hash" F) }, d, sv, hcl2, ?_, ?_, hd2, hdr2, hdh2, hsv2⟩
          · rw [hcm2]
            rw [hcmn (configMapKey nc.name) cm0 hc]
            simp
          · simp only [mread]
            rw [mget_mset_self]

theorem reconcile_settled (now : Nat) (req : String) (s : ClusterState)
    (nc : NginxClusterV) (cm : ConfigMapV) (d : DeploymentV) (sv : ServiceV)
    (hcl : alookup s.clusters req = some nc)
    (hfin : containsFinalizer nc = true)
    (hdel : nc.deletionTimestamp = none)
    (hcm : alookup s.configMaps (configMapKey nc.name) = some cm)
    (hcmh : mread cm.annotations "config-hash" = calculateConfigHash nc.spec.nginxConf)
    (hd : alookup s.deployments nc.name = some d)
    (hdr : d.replicas = some nc.spec.replicas)
    (hdh : mread d.templateAnnotations "config-hash" = calculateConfigHash nc.spec.nginxConf)
    (hsv : alookup s.services nc.name = some sv) :
    reconcile now req s =
      ⟨Outcome.ok ⟨false⟩,
       [Mutation.statusUpdate (pubStatus d (calculateConfigHash nc.spec.nginxConf) now)],
       applyStatusUpdate s { nc with status := pubStatus d (calculateConfigHash nc.spec.nginxConf) now }⟩ := by
  rw [reconcile_run now req s nc hcl hfin hdel]
  rw [configStep_match now nc _ [] s cm hcm hcmh]
  rw [deploymentStep_template_same now nc _ [] s d hd hdr hdh]
  rw [serviceAndStatusStep_present now nc _ d [] s sv hsv]
  simp

set_option maxHeartbeats 1600000 in
/-- C2 amended: after a pass on a resource that is not deletion-marked
completes fully (ordinary result, no requeue), the immediately following
pass with no intervening external change issues no create, no child-object
update and no cluster update: its only mutation is the unconditional
status update, which differs from the stored status only in the
lastUpdateTime instant. -/
theorem second_pass_only_status (t1 t2 : Nat) (req : String) (s : ClusterState)
    (hnames : NamesConsistent s)
    (hnodel : ∀ nc, alookup s.clusters req = some nc → nc.deletionTimestamp = none)
    (hok : (reconcile t1 req s).outcome = Outcome.ok ⟨false⟩) :
    (reconcile t2 req (reconcile t1 req s).state).outcome = Outcome.ok ⟨false⟩ ∧
    ∀ m ∈ (reconcile t2 req (reconcile t1 req s).state).trace,
      ∃ nc, alookup (reconcile t1 req s).state.clusters req = some nc ∧
        m = Mutation.statusUpdate { nc.status with lastUpdateTime := some t2 } := by
  obtain ⟨hc1, hc2, hc3, hc4⟩ := hnames
  rcases hcl : alookup s.clusters req with _ | nc0
  · rw [reconcile_notfound t1 req s hcl]
    dsimp only
    rw [reconcile_notfound t2 req s hcl]
    refine ⟨rfl, ?_⟩
    intro m hm
    simp at hm
  · have hdel0 : nc0.deletionTimestamp = none := hnodel nc0 hcl
    have hname0 : nc0.name = req := hc1 req nc0 hcl
    by_cases hfin : containsFinalizer nc0 = true
    · rw [reconcile_run t1 req s nc0 hcl hfin hdel0] at hok ⊢
      have hself : alookup s.clusters nc0.name = some nc0 := by
        rw [hname0]
        exact hcl
      obtain ⟨cm, d, sv, hcl2, hcm2, hch2, hd2, hdr2, hdh2, hsv2⟩ :=
        configStep_ok_false_post t1 nc0 _ [] s hself hc2 hc3 hok
      have hcl2' : alookup (configStep t1 nc0 (calculateConfigHash nc0.spec.nginxConf) [] s).state.clusters req =
          some { nc0 with status := pubStatus d (calculateConfigHash nc0.spec.nginxConf) t1 } := by
        rw [← hname0]
        exact hcl2
      rw [reconcile_settled t2 req _
        { nc0 with status := pubStatus d (calculateConfigHash nc0.spec.nginxConf) t1 } cm d sv
        hcl2' hfin hdel0 hcm2 hch2 hd2 hdr2 hdh2 hsv2]
      refine ⟨rfl, ?_⟩
      intro m hm
      simp only [List.mem_singleton] at hm
      exact ⟨_, hcl2', by subst hm; simp [pubStatus]⟩
    · have hfin' : containsFinalizer nc0 = false := by simpa using hfin
      rw [reconcile_run_addfin t1 req s nc0 hcl hfin' hdel0] at hok ⊢
      have hdelA : (addFinalizer nc0).deletionTimestamp = none := hdel0
      rw [applyClusterUpdate_unmarked s (addFinalizer nc0) hdelA] at hok ⊢
      have hselfA : alookup ({ s with clusters := aset s.clusters (addFinalizer nc0).name (addFinalizer nc0) } : ClusterState).clusters (addFinalizer nc0).name = some (addFinalizer nc0) := by
        simp
      obtain ⟨cm, d, sv, hcl2, hcm2, hch2, hd2, hdr2, hdh2, hsv2⟩ :=
        configStep_ok_false_post t1 (addFinalizer nc0) _ [Mutation.clusterUpdate (addFinalizer nc0)]
          { s with clusters := aset s.clusters (addFinalizer nc0).name (addFinalizer nc0) }
          hselfA hc2 hc3 hok
      have hcl2' : alookup (configStep t1 (addFinalizer nc0) (calculateConfigHash nc0.spec.nginxConf) [Mutation.clusterUpdate (addFinalizer nc0)] { s with clusters := aset s.clusters (addFinalizer nc0).name (addFinalizer nc0) }).state.clusters req =
          some { addFinalizer nc0 with status := pubStatus d (calculateConfigHash nc0.spec.nginxConf) t1 } := by
        rw [← hname0, ← addFinalizer_name nc0]
        exact hcl2
      rw [reconcile_settled t2 req _
        { addFinalizer nc0 with status := pubStatus d (calculateConfigHash nc0.spec.nginxConf) t1 } cm d sv
        hcl2' (containsFinalizer_addFinalizer nc0) hdel0 hcm2 hch2 hd2 hdr2 hdh2 hsv2]
      refine ⟨rfl, ?_⟩
      intro m hm
      simp only [List.mem_singleton] at hm
      exact ⟨_, hcl2', by subst hm; simp [pubStatus]⟩

/-- C2 counterexample: a pass on the converged web store at instant 0
completes successfully, yet the immediately following pass at instant 1
still issues a mutation and changes the stored state (the published
lastUpdateTime advances), so the second pass does not perform zero
state-changing mutations. -/
theorem second_pass_mutates :
    (reconcile 0 "web" convergedState).outcome = Outcome.ok ⟨false⟩ ∧
    (reconcile 1 "web" (reconcile 0 "web" convergedState).state).trace ≠ [] ∧
    (reconcile 1 "web" (reconcile 0 "web" convergedState).state).state ≠ (reconcile 0 "web" convergedState).state := by
  decide

/-- Witness for C2 amended at the converged web store, passes at instants
0 and 1. -/
theorem second_pass_only_status_witness :
    (reconcile 1 "web" (reconcile 0 "web" convergedState).state).outcome = Outcome.ok ⟨false⟩ ∧
    ∀ m ∈ (reconcile 1 "web" (reconcile 0 "web" convergedState).state).trace,
      ∃ nc, alookup (reconcile 0 "web" convergedState).state.clusters "web" = some nc ∧
        m = Mutation.statusUpdate { nc.status with lastUpdateTime := some 1 } :=
  second_pass_only_status 0 1 "web" convergedState
    (by
      refine ⟨?_, ?_, ?_, ?_⟩
      · intro k v h
        obtain ⟨h1, rfl⟩ := (alookup_singleton "web" k convergedCluster v).mp h
        rw [← h1]
        decide
      · intro k v h
        obtain ⟨h1, rfl⟩ := (alookup_singleton "web-nginx-config" k webConfigMap v).mp h
        rw [← h1]
        decide
      · intro k v h
        obtain ⟨h1, rfl⟩ := (alookup_singleton "web" k webDeployment v).mp h
        rw [← h1]
        decide
      · intro k v h
        obtain ⟨h1, rfl⟩ := (alookup_singleton "web" k webService v).mp h
        rw [← h1]
        decide)
    (by
      intro nc h
      obtain ⟨-, rfl⟩ := (alookup_singleton "web" "web" convergedCluster nc).mp h
      decide)
    (by decide)

end NginxOperator
